import Mathlib

/-!
Shallow embedding of the click-game server core of `the-click`:
`server/database.js` (ledger store) and `server/services/gameService.js`
(game engine and periodic incrementer).

JS `number` amounts are modelled as exact rationals; every amount the code
stores first goes through `Math.round(v * 1000) / 1000`, modelled exactly by
`round3` (Mathlib's `round` is `fun x => Int.floor (x + 1/2)`, which agrees
with JS `Math.round` on all finite inputs).  SQLite tables are modelled as
lists of rows; the singleton `jackpot_state` row (`id = 1`) is an `Option`.
`Math.random()`-driven coordinate draws are modelled by a tape of naturals
reduced into [0, 999] (the range of `Math.floor(Math.random() * 1000)`).
Calls of `new Date()` are threaded through as explicit `today` / `now`
string parameters (the `toISOString` date part and full timestamp; within a
single call every site computes the same date, so one parameter serves all).
A `better-sqlite3` transaction either commits all its writes or, when its
body throws, rolls every write back and rethrows; transaction bodies are
modelled as functions returning `Except`, the caller keeping the
pre-transaction database on `error`.
-/

namespace TheClick

/-- Row of the singleton `jackpot_state` table (`id = 1`). -/
structure JackpotRow where
  current_amount : ℚ
  last_update : String
  last_modified_by : String
  version : ℕ
deriving DecidableEq, Repr

/-- Values of the `action_type` column of `jackpot_history`. -/
inductive ActionType where
  | INCREMENT
  | AUTO_INCREMENT
  | JACKPOT_WIN
deriving DecidableEq, Repr

/-- Row of the append-only `jackpot_history` table. -/
structure HistoryRow where
  timestamp : String
  previous_amount : ℚ
  new_amount : ℚ
  action_type : ActionType
  user_id : String
deriving DecidableEq, Repr

/-- Row of the `daily_target` table (`target_date` is UNIQUE). -/
structure TargetRow where
  target_x : ℤ
  target_y : ℤ
  target_date : String
  version : ℕ
deriving DecidableEq, Repr

/-- Row of the `click_attempts` table (UNIQUE on `(identifier, attempt_date)`). -/
structure AttemptRow where
  identifier : String
  attempt_date : String
  timestamp : String
deriving DecidableEq, Repr

/-- Database state: the four tables created by `initDb`. -/
structure Db where
  jackpot : Option JackpotRow
  history : List HistoryRow
  targets : List TargetRow
  attempts : List AttemptRow
deriving DecidableEq, Repr

/-- Models `Math.round(v * 1000) / 1000`, the 3-decimal rounding used for all
stored amounts. -/
def round3 (v : ℚ) : ℚ := (round (v * 1000) : ℚ) / 1000

/-- Models `Math.round(Math.sqrt d2 * 1000)` for a natural `d2` (the squared
distance between integer points), computed exactly over ℕ via the identity
`Int.floor (Real.sqrt m + 1/2) = (Nat.sqrt (4 * m) + 1) / 2`; the agreement
with the real-valued source expression is proved in
`roundSqrt1000_eq_round_real_sqrt` below. -/
def roundSqrt1000 (d2 : ℕ) : ℕ := (Nat.sqrt (4 * (1000000 * d2)) + 1) / 2

/-- Models `Math.round(distance * 1000) / 1000` where
`distance = Math.sqrt d2`. -/
def roundedDistanceOf (d2 : ℕ) : ℚ := (roundSqrt1000 d2 : ℚ) / 1000

/-- Models `Math.pow(targetPixel.x - x, 2) + Math.pow(targetPixel.y - y, 2)`,
the squared Euclidean distance (a natural number for integer inputs). -/
def distSq (x y tx ty : ℤ) : ℕ := ((tx - x) ^ 2 + (ty - y) ^ 2).toNat

/-- Models `getJackpot`: `SELECT current_amount FROM jackpot_state WHERE id = 1`
followed by `{ current_amount: row ? row.current_amount : 0 }` — a missing
singleton row reads as amount 0 rather than an error. -/
def getJackpot (db : Db) : ℚ :=
  match db.jackpot with
  | some row => row.current_amount
  | none => 0

/-- Models `updateJackpot(newAmount, userId)`: throws (`Except.error`) when the
amount is outside `[0, 10000000]`, otherwise rounds to 3 decimals and runs
`UPDATE jackpot_state SET current_amount = ?, last_update = ?,
last_modified_by = ?, version = version + 1 WHERE id = 1`, returning
`result.changes > 0` (false when the singleton row is absent). -/
def updateJackpot (newAmount : ℚ) (userId now : String) (db : Db) :
    Except String (Bool × Db) :=
  if newAmount < 0 ∨ 10000000 < newAmount then
    .error "Invalid jackpot amount"
  else
    let roundedAmount := round3 newAmount
    match db.jackpot with
    | some row =>
        .ok (true, { db with jackpot := some ⟨roundedAmount, now, userId, row.version + 1⟩ })
    | none => .ok (false, db)

/-- Models `resetJackpot(baseAmount, userId)`, which delegates to
`updateJackpot`. -/
def resetJackpot (baseAmount : ℚ) (userId now : String) (db : Db) :
    Except String (Bool × Db) :=
  updateJackpot baseAmount userId now db

/-- Models `logJackpotHistory`: an unconditional `INSERT` into the append-only
`jackpot_history` table, returning `result.changes > 0`. -/
def logJackpotHistory (previousAmount newAmount : ℚ) (actionType : ActionType)
    (userId now : String) (db : Db) : Bool × Db :=
  (true, { db with history := db.history ++ [⟨now, previousAmount, newAmount, actionType, userId⟩] })

/-- Models `SELECT ... FROM daily_target WHERE target_date = ?` (the column is
UNIQUE, so the first match is the only one). -/
def findTarget (date : String) (db : Db) : Option TargetRow :=
  db.targets.find? (fun row => row.target_date == date)

/-- View `{ x, y, date }` returned by the daily-target functions. -/
structure TargetPixel where
  x : ℤ
  y : ℤ
  date : String
deriving DecidableEq, Repr

/-- Models `Math.floor(Math.random() * 1000)` against a tape of pseudo-random
naturals: one tape entry is consumed and reduced into the range [0, 999]. -/
def randCoord (rng : List ℕ) : ℤ × List ℕ :=
  ((rng.headD 0 % 1000 : ℕ), rng.tail)

/-- Models `getOrCreateDailyTargetPixel`: return today's target row if present,
otherwise draw random coordinates and insert a fresh row at version 1.  The
insert is an ordinary statement, not wrapped in any transaction. -/
def getOrCreateDailyTargetPixel (currentDate : String) (db : Db) (rng : List ℕ) :
    TargetPixel × Db × List ℕ :=
  match findTarget currentDate db with
  | some targetRow => (⟨targetRow.target_x, targetRow.target_y, targetRow.target_date⟩, db, rng)
  | none =>
      let (newX, rng1) := randCoord rng
      let (newY, rng2) := randCoord rng1
      (⟨newX, newY, currentDate⟩,
        { db with targets := db.targets ++ [⟨newX, newY, currentDate, 1⟩] }, rng2)

/-- Models `forceNewDailyTarget`: `INSERT ... VALUES (?, ?, ?, 1) ON
CONFLICT(target_date) DO UPDATE SET target_x = excluded.target_x,
target_y = excluded.target_y, version = daily_target.version + 1`. -/
def forceNewDailyTarget (currentDate : String) (db : Db) (rng : List ℕ) :
    TargetPixel × Db × List ℕ :=
  let (newX, rng1) := randCoord rng
  let (newY, rng2) := randCoord rng1
  let db' :=
    match findTarget currentDate db with
    | some _ =>
        { db with targets := db.targets.map (fun row =>
            if row.target_date == currentDate then
              { row with target_x := newX, target_y := newY, version := row.version + 1 }
            else row) }
    | none => { db with targets := db.targets ++ [⟨newX, newY, currentDate, 1⟩] }
  (⟨newX, newY, currentDate⟩, db', rng2)

/-- Models `hasAttemptedToday`: `SELECT id FROM click_attempts WHERE
identifier = ? AND attempt_date = ?`, coerced with `!!row`. -/
def hasAttemptedToday (identifier attempt_date : String) (db : Db) : Bool :=
  db.attempts.any (fun row => row.identifier == identifier && row.attempt_date == attempt_date)

/-- Models `recordClickAttempt`: the `INSERT` throws a `SqliteError` when the
`UNIQUE(identifier, attempt_date)` constraint is violated, and the function
rethrows it; otherwise the row is inserted and `result.changes > 0` holds. -/
def recordClickAttempt (identifier attempt_date now : String) (db : Db) :
    Except String (Bool × Db) :=
  if db.attempts.any (fun row => row.identifier == identifier && row.attempt_date == attempt_date) then
    .error "UNIQUE constraint failed: click_attempts.identifier, click_attempts.attempt_date"
  else
    .ok (true, { db with attempts := db.attempts ++ [⟨identifier, attempt_date, now⟩] })

/-- Result objects returned by `handleClick` (tagged by `status`/`type`). -/
inductive ClickOutcome where
  | validationError (message : String)
  | attemptLimitError (message : String)
  | serverError (message : String)
  | win (distance : ℚ) (targetX targetY : ℤ) (wonAmount newBaseJackpotAmount : ℚ)
  | miss (distance : ℚ) (targetX targetY : ℤ) (newJackpotAmount : ℚ)
deriving DecidableEq, Repr

/-- Holds exactly for the `status: 'success'` outcomes (`win` and `miss`). -/
def ClickOutcome.isSuccess : ClickOutcome → Bool
  | .win .. => true
  | .miss .. => true
  | _ => false

/-- Holds exactly for the `status: 'error'` outcomes. -/
def ClickOutcome.isError (o : ClickOutcome) : Bool := !o.isSuccess

/-- Holds exactly for the `type: 'attempt_limit'` outcome. -/
def ClickOutcome.isAttemptLimitError : ClickOutcome → Bool
  | .attemptLimitError _ => true
  | _ => false

/-- Holds exactly for the `type: 'win'` outcome. -/
def ClickOutcome.isWin : ClickOutcome → Bool
  | .win .. => true
  | _ => false

/-- Database plus the pseudo-random tape feeding `Math.random()`. -/
structure World where
  db : Db
  rng : List ℕ
deriving DecidableEq, Repr

/-- Body of `winTransaction` (gameService lines 46–53): reset the jackpot to
the base amount, log a JACKPOT_WIN entry, force-rotate the daily target and
record the click attempt; a falsy `resetJackpot` result throws.  On a throw
the transaction rolls its database writes back; the `error` payload carries
the pseudo-random tape as consumed up to the throw (random draws are not
undone by a rollback). -/
def winTx (userIdentifier today now : String) (wonAmount : ℚ) (w : World) :
    Except (List ℕ) World :=
  match resetJackpot 100 userIdentifier now w.db with
  | .error _ => .error w.rng
  | .ok (ok1, db1) =>
    if ok1 then
      let (_, db2) := logJackpotHistory wonAmount 100 .JACKPOT_WIN userIdentifier now db1
      let (_, db3, rng3) := forceNewDailyTarget today db2 w.rng
      match recordClickAttempt userIdentifier today now db3 with
      | .error _ => .error rng3
      | .ok (_, db4) => .ok ⟨db4, rng3⟩
    else .error w.rng

/-- Body of `missTransaction` (gameService lines 70–76): update the jackpot to
the rounded incremented amount, log an INCREMENT entry and record the click
attempt; a falsy `updateJackpot` result throws. -/
def missTx (userIdentifier today now : String)
    (previousAmount roundedNewJackpotAmount : ℚ) (w : World) :
    Except (List ℕ) World :=
  match updateJackpot roundedNewJackpotAmount userIdentifier now w.db with
  | .error _ => .error w.rng
  | .ok (ok1, db1) =>
    if ok1 then
      let (_, db2) := logJackpotHistory previousAmount roundedNewJackpotAmount .INCREMENT
        userIdentifier now db1
      match recordClickAttempt userIdentifier today now db2 with
      | .error _ => .error w.rng
      | .ok (_, db3) => .ok ⟨db3, w.rng⟩
    else .error w.rng

/-- Body of the `try` block of `handleClick` (gameService lines 35–93): target
read (with lazy creation committed outside any transaction), distance
computation, jackpot snapshot, then the win or miss transaction; any throw is
caught and reported as the generic server error, with the database rolled back
to its pre-transaction contents. -/
def clickBody (x y : ℤ) (userIdentifier today now : String) (w : World) :
    ClickOutcome × World :=
  let (targetPixel, db0, rng0) := getOrCreateDailyTargetPixel today w.db w.rng
  let roundedDistance := roundedDistanceOf (distSq x y targetPixel.x targetPixel.y)
  let currentAmount := getJackpot db0
  if roundedDistance = 0 then
    let baseAmount : ℚ := 100
    let wonAmount := currentAmount
    match winTx userIdentifier today now wonAmount ⟨db0, rng0⟩ with
    | .error rngE => (.serverError "An unexpected server error occurred.", ⟨db0, rngE⟩)
    | .ok w1 => (.win roundedDistance targetPixel.x targetPixel.y wonAmount baseAmount, w1)
  else
    let roundedNewJackpotAmount := round3 (currentAmount + 1 / 1000)
    match missTx userIdentifier today now currentAmount roundedNewJackpotAmount ⟨db0, rng0⟩ with
    | .error rngE => (.serverError "An unexpected server error occurred.", ⟨db0, rngE⟩)
    | .ok w1 => (.miss roundedDistance targetPixel.x targetPixel.y roundedNewJackpotAmount, w1)

/-- Models `handleClick(x, y, userIdentifier)` (gameService lines 14–94):
range validation, then the `hasAttemptedToday` pre-check, then the body. -/
def handleClick (x y : ℤ) (userIdentifier today now : String) (w : World) :
    ClickOutcome × World :=
  if x < 0 ∨ 999 < x ∨ y < 0 ∨ 999 < y then
    (.validationError "Invalid coordinates.", w)
  else if hasAttemptedToday userIdentifier today w.db then
    (.attemptLimitError "You have already made your attempt for today.", w)
  else
    clickBody x y userIdentifier today now w

/-- Models a run of `handleClick` in which a concurrent writer commits between
the `hasAttemptedToday` pre-check (line 31) and the `try` block: `interfere`
is the racing writer's committed effect on the shared database.  With
`interfere = id` this is exactly `handleClick` (see `handleClickRaced_id`). -/
def handleClickRaced (interfere : Db → Db) (x y : ℤ)
    (userIdentifier today now : String) (w : World) : ClickOutcome × World :=
  if x < 0 ∨ 999 < x ∨ y < 0 ∨ 999 < y then
    (.validationError "Invalid coordinates.", w)
  else if hasAttemptedToday userIdentifier today w.db then
    (.attemptLimitError "You have already made your attempt for today.", w)
  else
    clickBody x y userIdentifier today now ⟨interfere w.db, w.rng⟩

/-- Result objects returned by `performAutoIncrement`. -/
inductive TickOutcome where
  | success (newJackpotAmount : ℚ)
  | serverError (message : String)
deriving DecidableEq, Repr

/-- Holds exactly for the `status: 'success'` tick outcome. -/
def TickOutcome.isSuccess : TickOutcome → Bool
  | .success _ => true
  | _ => false

/-- Models `performAutoIncrement` (gameService lines 96–116): read the
jackpot, add 0.01, round to 3 decimals, then one transaction updating the
jackpot and logging an AUTO_INCREMENT entry as the reserved `system` actor;
any throw is caught and reported as a generic failure with the transaction
rolled back. -/
def performAutoIncrement (now : String) (db : Db) : TickOutcome × Db :=
  let currentAmount := getJackpot db
  let roundedAmount := round3 (currentAmount + 1 / 100)
  match updateJackpot roundedAmount "system" now db with
  | .error _ => (.serverError "Auto increment failed.", db)
  | .ok (ok1, db1) =>
    if ok1 then
      let (_, db2) := logJackpotHistory currentAmount roundedAmount .AUTO_INCREMENT "system" now db1
      (.success roundedAmount, db2)
    else (.serverError "Auto increment failed.", db)

/-- Models `initDb` on a fresh store: the four empty tables, the default
jackpot row `(1, 100.00, now, 'system', 1)` and a random daily target for the
current date at version 1. -/
def initialDb (today now : String) (rng : List ℕ) : Db × List ℕ :=
  let (newX, rng1) := randCoord rng
  let (newY, rng2) := randCoord rng1
  ({ jackpot := some ⟨100, now, "system", 1⟩
     history := []
     targets := [⟨newX, newY, today, 1⟩]
     attempts := [] }, rng2)

/-- Ledger states reachable from a fresh `initDb` store through the two
mutating entry points of the game service. -/
inductive Reachable : Db → Prop where
  | init (today now : String) (rng : List ℕ) : Reachable (initialDb today now rng).1
  | click (x y : ℤ) (userIdentifier today now : String) (rng : List ℕ) {db : Db} :
      Reachable db → Reachable (handleClick x y userIdentifier today now ⟨db, rng⟩).2.db
  | tick (now : String) {db : Db} :
      Reachable db → Reachable (performAutoIncrement now db).2

/-! Arithmetic facts about the rounding helpers. -/

/-- Rounding to 3 decimals preserves nonnegativity. -/
theorem round3_nonneg (v : ℚ) (h : 0 ≤ v) : 0 ≤ round3 v := by
  unfold round3
  have h1 : (0 : ℤ) ≤ round (v * 1000) := by
    rw [round_eq]
    exact Int.le_floor.mpr (by push_cast; linarith)
  have h2 : (0 : ℚ) ≤ (round (v * 1000) : ℚ) := by exact_mod_cast h1
  linarith

/-- Rounding to 3 decimals preserves the 10,000,000 ceiling. -/
theorem round3_le_ceiling (v : ℚ) (h : v ≤ 10000000) : round3 v ≤ 10000000 := by
  unfold round3
  have h1 : round (v * 1000) < (10000000001 : ℤ) := by
    rw [round_eq]
    exact Int.floor_lt.mpr (by push_cast; linarith)
  have h2 : (round (v * 1000) : ℚ) ≤ 10000000000 := by exact_mod_cast Int.lt_add_one_iff.mp h1
  linarith

/-- The 3-decimal rounding is idempotent: amounts already rounded (as every
amount handed to `updateJackpot` by the service is) pass through unchanged. -/
theorem round3_idem (v : ℚ) : round3 (round3 v) = round3 v := by
  unfold round3
  rw [div_mul_cancel₀ _ (by norm_num : (1000 : ℚ) ≠ 0), round_intCast]

/-- Agreement of the ℕ-level encoding with the source expression
`Math.round(Math.sqrt d2 * 1000)` over the reals. -/
theorem roundSqrt1000_eq_round_real_sqrt (n : ℕ) :
    (roundSqrt1000 n : ℤ) = round ((1000 : ℝ) * Real.sqrt n) := by
  have h4 : ((4 * (1000000 * n) : ℕ) : ℝ) = (2000 : ℝ) ^ 2 * n := by push_cast; ring
  have hsq : Real.sqrt ((4 * (1000000 * n) : ℕ) : ℝ) = 2000 * Real.sqrt n := by
    rw [h4, Real.sqrt_mul (by positivity), Real.sqrt_sq (by norm_num)]
  have hle : ((Nat.sqrt (4 * (1000000 * n)) : ℕ) : ℝ) ≤ 2000 * Real.sqrt n := by
    rw [← hsq]; exact Real.nat_sqrt_le_real_sqrt
  have hlt : 2000 * Real.sqrt n < ((Nat.sqrt (4 * (1000000 * n)) : ℕ) : ℝ) + 1 := by
    rw [← hsq]; exact_mod_cast Real.real_sqrt_lt_nat_sqrt_succ
  rw [round_eq]
  have hbounds :
      ((((Nat.sqrt (4 * (1000000 * n)) + 1) / 2 : ℕ) : ℝ) ≤ 1000 * Real.sqrt n + 1 / 2) ∧
      (1000 * Real.sqrt n + 1 / 2 < (((Nat.sqrt (4 * (1000000 * n)) + 1) / 2 : ℕ) : ℝ) + 1) := by
    rcases Nat.even_or_odd (Nat.sqrt (4 * (1000000 * n))) with ⟨u, hu⟩ | ⟨u, hu⟩
    · have ht : (Nat.sqrt (4 * (1000000 * n)) + 1) / 2 = u := by omega
      have hu' : ((Nat.sqrt (4 * (1000000 * n)) : ℕ) : ℝ) = 2 * u := by
        rw [hu]; push_cast; ring
      rw [ht]
      constructor
      · rw [hu'] at hle; linarith
      · rw [hu'] at hlt; linarith
    · have ht : (Nat.sqrt (4 * (1000000 * n)) + 1) / 2 = u + 1 := by omega
      have hu' : ((Nat.sqrt (4 * (1000000 * n)) : ℕ) : ℝ) = 2 * u + 1 := by
        rw [hu]; push_cast; ring
      rw [ht]
      push_cast
      constructor
      · rw [hu'] at hle; linarith
      · rw [hu'] at hlt; linarith
  have hfloor : ⌊1000 * Real.sqrt n + 1 / 2⌋ =
      (((Nat.sqrt (4 * (1000000 * n)) + 1) / 2 : ℕ) : ℤ) := by
    rw [Int.floor_eq_iff]
    constructor
    · exact_mod_cast hbounds.1
    · push_cast
      exact_mod_cast hbounds.2
  rw [hfloor]
  rfl

/-- The rounded distance is zero exactly on squared distance zero: the
smallest nonzero integer squared distance is 1, whose rounded root is 1. -/
theorem roundedDistanceOf_eq_zero_iff (n : ℕ) : roundedDistanceOf n = 0 ↔ n = 0 := by
  unfold roundedDistanceOf
  rw [div_eq_zero_iff]
  constructor
  · rintro (h | h)
    · have h0 : roundSqrt1000 n = 0 := by exact_mod_cast h
      unfold roundSqrt1000 at h0
      by_contra hn
      have h1 : 2000 ≤ Nat.sqrt (4 * (1000000 * n)) := by
        rw [Nat.le_sqrt]
        have : 1 ≤ n := Nat.one_le_iff_ne_zero.mpr hn
        nlinarith
      omega
    · exact absurd h (by norm_num)
  · rintro rfl
    simp [roundSqrt1000]

/-- Value of `round3` on the base amount. -/
theorem round3_base : round3 (100 : ℚ) = 100 := by
  unfold round3; norm_num [round_eq]

/-- The squared distance between integer points vanishes exactly on equality
of the coordinates. -/
theorem distSq_eq_zero_iff (x y tx ty : ℤ) :
    distSq x y tx ty = 0 ↔ tx = x ∧ ty = y := by
  unfold distSq
  rw [Int.toNat_eq_zero]
  constructor
  · intro h
    have h1 := sq_nonneg (tx - x)
    have h2 := sq_nonneg (ty - y)
    have hx : (tx - x) ^ 2 = 0 := by linarith
    have hy : (ty - y) ^ 2 = 0 := by linarith
    constructor
    · have hx0 : tx - x = 0 := sq_eq_zero_iff.mp hx
      linarith
    · have hy0 : ty - y = 0 := sq_eq_zero_iff.mp hy
      linarith
  · rintro ⟨rfl, rfl⟩
    simp

/-! Characterizations of the single database operations. -/

/-- Successful `updateJackpot` on a present singleton row. -/
theorem updateJackpot_some (a : ℚ) (userId now : String) (db : Db) (jr : JackpotRow)
    (hJ : db.jackpot = some jr) (hLo : 0 ≤ a) (hHi : a ≤ 10000000) :
    updateJackpot a userId now db =
      .ok (true, { db with jackpot := some ⟨round3 a, now, userId, jr.version + 1⟩ }) := by
  unfold updateJackpot
  rw [if_neg (by push_neg; exact ⟨hLo, hHi⟩), hJ]

/-- An `updateJackpot` whose amount passes the range check but whose singleton
row is absent updates nothing and reports `changes = 0`. -/
theorem updateJackpot_none (a : ℚ) (userId now : String) (db : Db)
    (hJ : db.jackpot = none) (hLo : 0 ≤ a) (hHi : a ≤ 10000000) :
    updateJackpot a userId now db = .ok (false, db) := by
  unfold updateJackpot
  rw [if_neg (by push_neg; exact ⟨hLo, hHi⟩), hJ]

/-- A negative `updateJackpot` amount throws before touching the row. -/
theorem updateJackpot_below_zero (a : ℚ) (userId now : String) (db : Db)
    (hLo : a < 0) :
    updateJackpot a userId now db = .error "Invalid jackpot amount" := by
  unfold updateJackpot
  rw [if_pos (Or.inl hLo)]

/-- An `updateJackpot` above the ceiling throws before touching the row. -/
theorem updateJackpot_above_ceiling (a : ℚ) (userId now : String) (db : Db)
    (hHi : 10000000 < a) :
    updateJackpot a userId now db = .error "Invalid jackpot amount" := by
  unfold updateJackpot
  rw [if_pos (Or.inr hHi)]

/-- Inversion for a committed `updateJackpot`. -/
theorem updateJackpot_ok_cases {a : ℚ} {userId now : String} {db db' : Db} {b : Bool}
    (h : updateJackpot a userId now db = .ok (b, db')) :
    (b = false ∧ db' = db) ∨
    (b = true ∧ 0 ≤ a ∧ a ≤ 10000000 ∧ ∃ jr, db.jackpot = some jr ∧
      db' = { db with jackpot := some ⟨round3 a, now, userId, jr.version + 1⟩ }) := by
  unfold updateJackpot at h
  split at h
  · exact absurd h (by simp)
  · next hcond =>
    push_neg at hcond
    cases hJ : db.jackpot with
    | some jr =>
        rw [hJ] at h
        simp only [Except.ok.injEq, Prod.mk.injEq] at h
        exact Or.inr ⟨h.1.symm, hcond.1, hcond.2, jr, rfl, h.2.symm⟩
    | none =>
        rw [hJ] at h
        simp only [Except.ok.injEq, Prod.mk.injEq] at h
        exact Or.inl ⟨h.1.symm, h.2.symm⟩

/-- A fresh `(identifier, date)` key inserts and reports `changes > 0`. -/
theorem recordClickAttempt_fresh (identifier attempt_date now : String) (db : Db)
    (h : hasAttemptedToday identifier attempt_date db = false) :
    recordClickAttempt identifier attempt_date now db =
      .ok (true, { db with attempts := db.attempts ++ [⟨identifier, attempt_date, now⟩] }) := by
  unfold recordClickAttempt
  unfold hasAttemptedToday at h
  rw [if_neg (by rw [h]; simp)]

/-- A duplicate `(identifier, date)` key makes the insert throw on the
uniqueness constraint. -/
theorem recordClickAttempt_dup (identifier attempt_date now : String) (db : Db)
    (h : hasAttemptedToday identifier attempt_date db = true) :
    recordClickAttempt identifier attempt_date now db =
      .error "UNIQUE constraint failed: click_attempts.identifier, click_attempts.attempt_date" := by
  unfold recordClickAttempt
  unfold hasAttemptedToday at h
  rw [if_pos (by rw [h])]

/-- Reading the daily target when today's row exists: a pure read. -/
theorem getOrCreate_some (d : String) (db : Db) (rng : List ℕ) (t : TargetRow)
    (hT : findTarget d db = some t) :
    getOrCreateDailyTargetPixel d db rng =
      (⟨t.target_x, t.target_y, t.target_date⟩, db, rng) := by
  unfold getOrCreateDailyTargetPixel
  rw [hT]

/-- Reading the daily target when today's row is absent: two random draws and
an insert at version 1, committed outside any transaction. -/
theorem getOrCreate_none (d : String) (db : Db) (rng : List ℕ)
    (hT : findTarget d db = none) :
    getOrCreateDailyTargetPixel d db rng =
      (⟨(randCoord rng).1, (randCoord (randCoord rng).2).1, d⟩,
       { db with targets :=
          db.targets ++ [⟨(randCoord rng).1, (randCoord (randCoord rng).2).1, d, 1⟩] },
       (randCoord (randCoord rng).2).2) := by
  unfold getOrCreateDailyTargetPixel
  rw [hT]

/-- Forced rotation when today's row exists: in-place replacement with a
version bump. -/
theorem forceNewDailyTarget_some (d : String) (db : Db) (rng : List ℕ) (t : TargetRow)
    (hT : findTarget d db = some t) :
    forceNewDailyTarget d db rng =
      (⟨(randCoord rng).1, (randCoord (randCoord rng).2).1, d⟩,
       { db with targets := db.targets.map (fun row =>
          if row.target_date == d then
            { row with
              target_x := (randCoord rng).1
              target_y := (randCoord (randCoord rng).2).1
              version := row.version + 1 }
          else row) },
       (randCoord (randCoord rng).2).2) := by
  unfold forceNewDailyTarget
  rw [hT]

/-- Forced rotation when today's row is absent: a fresh insert at version 1. -/
theorem forceNewDailyTarget_none (d : String) (db : Db) (rng : List ℕ)
    (hT : findTarget d db = none) :
    forceNewDailyTarget d db rng =
      (⟨(randCoord rng).1, (randCoord (randCoord rng).2).1, d⟩,
       { db with targets :=
          db.targets ++ [⟨(randCoord rng).1, (randCoord (randCoord rng).2).1, d, 1⟩] },
       (randCoord (randCoord rng).2).2) := by
  unfold forceNewDailyTarget
  rw [hT]

/-! Characterizations of the two transaction bodies. -/

/-- The win transaction commits when the jackpot row exists, today's target
row exists and the caller has no attempt recorded yet. -/
theorem winTx_committed (uid today now : String) (a : ℚ) (db : Db) (rng : List ℕ)
    (jr : JackpotRow) (t : TargetRow)
    (hJ : db.jackpot = some jr) (hT : findTarget today db = some t)
    (hA : hasAttemptedToday uid today db = false) :
    winTx uid today now a ⟨db, rng⟩ =
      .ok ⟨{ jackpot := some ⟨100, now, uid, jr.version + 1⟩
             history := db.history ++ [⟨now, a, 100, .JACKPOT_WIN, uid⟩]
             targets := db.targets.map (fun row =>
               if row.target_date == today then
                 { row with
                   target_x := (randCoord rng).1
                   target_y := (randCoord (randCoord rng).2).1
                   version := row.version + 1 }
               else row)
             attempts := db.attempts ++ [⟨uid, today, now⟩] },
           (randCoord (randCoord rng).2).2⟩ := by
  unfold winTx resetJackpot
  rw [updateJackpot_some 100 uid now db jr hJ (by norm_num) (by norm_num)]
  simp only [logJackpotHistory]
  rw [forceNewDailyTarget_some today _ rng t (by unfold findTarget at hT ⊢; exact hT)]
  rw [recordClickAttempt_fresh uid today now _ (by unfold hasAttemptedToday at hA ⊢; exact hA)]
  simp [round3_base]

/-- The win transaction also commits when today's target row is absent at
commit time (the forced rotation then inserts a fresh row at version 1). -/
theorem winTx_committed_fresh_target (uid today now : String) (a : ℚ) (db : Db)
    (rng : List ℕ) (jr : JackpotRow)
    (hJ : db.jackpot = some jr) (hT : findTarget today db = none)
    (hA : hasAttemptedToday uid today db = false) :
    winTx uid today now a ⟨db, rng⟩ =
      .ok ⟨{ jackpot := some ⟨100, now, uid, jr.version + 1⟩
             history := db.history ++ [⟨now, a, 100, .JACKPOT_WIN, uid⟩]
             targets := db.targets ++
               [⟨(randCoord rng).1, (randCoord (randCoord rng).2).1, today, 1⟩]
             attempts := db.attempts ++ [⟨uid, today, now⟩] },
           (randCoord (randCoord rng).2).2⟩ := by
  unfold winTx resetJackpot
  rw [updateJackpot_some 100 uid now db jr hJ (by norm_num) (by norm_num)]
  simp only [logJackpotHistory]
  rw [forceNewDailyTarget_none today _ rng (by unfold findTarget at hT ⊢; exact hT)]
  rw [recordClickAttempt_fresh uid today now _ (by unfold hasAttemptedToday at hA ⊢; exact hA)]
  simp [round3_base]

/-- The win transaction aborts on the attempt-uniqueness constraint when the
caller's attempt row is already present at commit time; the random draws of
the forced rotation have been consumed but every write is rolled back. -/
theorem winTx_dup (uid today now : String) (a : ℚ) (db : Db) (rng : List ℕ)
    (jr : JackpotRow)
    (hJ : db.jackpot = some jr)
    (hA : hasAttemptedToday uid today db = true) :
    winTx uid today now a ⟨db, rng⟩ = .error (randCoord (randCoord rng).2).2 := by
  unfold winTx resetJackpot
  rw [updateJackpot_some 100 uid now db jr hJ (by norm_num) (by norm_num)]
  simp only [logJackpotHistory]
  unfold forceNewDailyTarget
  cases hT : findTarget today ({ db with
      jackpot := some ⟨round3 100, now, uid, jr.version + 1⟩,
      history := db.history ++ [⟨now, a, 100, .JACKPOT_WIN, uid⟩] } : Db) <;>
    simp only [hT] <;>
    rw [recordClickAttempt_dup uid today now _ (by unfold hasAttemptedToday at hA ⊢; exact hA)] <;>
    simp

/-- The win transaction aborts when the jackpot singleton row is absent
(`resetJackpot` reports `changes = 0`, and the body throws). -/
theorem winTx_no_row (uid today now : String) (a : ℚ) (db : Db) (rng : List ℕ)
    (hJ : db.jackpot = none) :
    winTx uid today now a ⟨db, rng⟩ = .error rng := by
  unfold winTx resetJackpot
  rw [updateJackpot_none 100 uid now db hJ (by norm_num) (by norm_num)]
  simp

/-- Inversion for a committed win transaction: the jackpot row existed and is
reset to the base amount with its version bumped by one. -/
theorem winTx_ok_jackpot {uid today now : String} {a : ℚ} {db : Db} {rng : List ℕ}
    {w1 : World} (h : winTx uid today now a ⟨db, rng⟩ = .ok w1) :
    ∃ jr, db.jackpot = some jr ∧
      w1.db.jackpot = some ⟨100, now, uid, jr.version + 1⟩ := by
  cases hJ : db.jackpot with
  | none => rw [winTx_no_row uid today now a db rng hJ] at h; exact absurd h (by simp)
  | some jr =>
      refine ⟨jr, rfl, ?_⟩
      cases hA : hasAttemptedToday uid today db with
      | true =>
          rw [winTx_dup uid today now a db rng jr hJ hA] at h
          exact absurd h (by simp)
      | false =>
          cases hT : findTarget today db with
          | some t =>
              rw [winTx_committed uid today now a db rng jr t hJ hT hA] at h
              simp only [Except.ok.injEq] at h
              rw [← h]
          | none =>
              rw [winTx_committed_fresh_target uid today now a db rng jr hJ hT hA] at h
              simp only [Except.ok.injEq] at h
              rw [← h]

/-- The miss transaction commits when the jackpot row exists, the rounded new
amount passes the range check and the caller has no attempt recorded yet. -/
theorem missTx_committed (uid today now : String) (p a : ℚ) (db : Db) (rng : List ℕ)
    (jr : JackpotRow)
    (hJ : db.jackpot = some jr) (hLo : 0 ≤ a) (hHi : a ≤ 10000000)
    (hA : hasAttemptedToday uid today db = false) :
    missTx uid today now p a ⟨db, rng⟩ =
      .ok ⟨{ jackpot := some ⟨round3 a, now, uid, jr.version + 1⟩
             history := db.history ++ [⟨now, p, a, .INCREMENT, uid⟩]
             targets := db.targets
             attempts := db.attempts ++ [⟨uid, today, now⟩] },
           rng⟩ := by
  unfold missTx
  rw [updateJackpot_some a uid now db jr hJ hLo hHi]
  simp only [logJackpotHistory]
  rw [recordClickAttempt_fresh uid today now _ (by unfold hasAttemptedToday at hA ⊢; exact hA)]
  simp

/-- The miss transaction aborts on the attempt-uniqueness constraint when the
caller's attempt row is already present at commit time. -/
theorem missTx_dup (uid today now : String) (p a : ℚ) (db : Db) (rng : List ℕ)
    (jr : JackpotRow)
    (hJ : db.jackpot = some jr) (hLo : 0 ≤ a) (hHi : a ≤ 10000000)
    (hA : hasAttemptedToday uid today db = true) :
    missTx uid today now p a ⟨db, rng⟩ = .error rng := by
  unfold missTx
  rw [updateJackpot_some a uid now db jr hJ hLo hHi]
  simp only [logJackpotHistory]
  rw [recordClickAttempt_dup uid today now _ (by unfold hasAttemptedToday at hA ⊢; exact hA)]
  simp

/-- The miss transaction aborts inside `updateJackpot` when the incremented
amount exceeds the ceiling; nothing is written. -/
theorem missTx_above_ceiling (uid today now : String) (p a : ℚ) (db : Db) (rng : List ℕ)
    (hHi : 10000000 < a) :
    missTx uid today now p a ⟨db, rng⟩ = .error rng := by
  unfold missTx
  rw [updateJackpot_above_ceiling a uid now db hHi]

/-- The miss transaction aborts inside `updateJackpot` on a negative amount. -/
theorem missTx_below_zero (uid today now : String) (p a : ℚ) (db : Db) (rng : List ℕ)
    (hLo : a < 0) :
    missTx uid today now p a ⟨db, rng⟩ = .error rng := by
  unfold missTx
  rw [updateJackpot_below_zero a uid now db hLo]

/-- The miss transaction aborts when the jackpot singleton row is absent
(`updateJackpot` reports `changes = 0`, and the body throws). -/
theorem missTx_no_row (uid today now : String) (p a : ℚ) (db : Db) (rng : List ℕ)
    (hJ : db.jackpot = none) (hLo : 0 ≤ a) (hHi : a ≤ 10000000) :
    missTx uid today now p a ⟨db, rng⟩ = .error rng := by
  unfold missTx
  rw [updateJackpot_none a uid now db hJ hLo hHi]
  simp

/-- Inversion for a committed miss transaction. -/
theorem missTx_ok_jackpot {uid today now : String} {p a : ℚ} {db : Db} {rng : List ℕ}
    {w1 : World} (h : missTx uid today now p a ⟨db, rng⟩ = .ok w1) :
    0 ≤ a ∧ a ≤ 10000000 ∧ ∃ jr, db.jackpot = some jr ∧
      w1.db.jackpot = some ⟨round3 a, now, uid, jr.version + 1⟩ := by
  by_cases h1 : a < 0
  · rw [missTx_below_zero uid today now p a db rng h1] at h
    exact absurd h (by simp)
  · by_cases h2 : 10000000 < a
    · rw [missTx_above_ceiling uid today now p a db rng h2] at h
      exact absurd h (by simp)
    · push_neg at h1 h2
      cases hJ : db.jackpot with
      | none =>
          rw [missTx_no_row uid today now p a db rng hJ h1 h2] at h
          exact absurd h (by simp)
      | some jr =>
          cases hA : hasAttemptedToday uid today db with
          | true =>
              rw [missTx_dup uid today now p a db rng jr hJ h1 h2 hA] at h
              exact absurd h (by simp)
          | false =>
              rw [missTx_committed uid today now p a db rng jr hJ h1 h2 hA] at h
              simp only [Except.ok.injEq] at h
              exact ⟨h1, h2, jr, rfl, by rw [← h]⟩

/-! Characterizations of `clickBody` and `handleClick`. -/

/-- Reading the jackpot snapshot on a present row. -/
theorem getJackpot_some (db : Db) (jr : JackpotRow) (hJ : db.jackpot = some jr) :
    getJackpot db = jr.current_amount := by
  unfold getJackpot; rw [hJ]

/-- Reading the jackpot snapshot on an absent row. -/
theorem getJackpot_none (db : Db) (hJ : db.jackpot = none) :
    getJackpot db = 0 := by
  unfold getJackpot; rw [hJ]

/-- Unfolding of `clickBody` when today's target row exists: the pure read
leaves the database untouched and the win/miss split runs on the stored
coordinates. -/
theorem clickBody_target (x y : ℤ) (uid today now : String) (db : Db) (rng : List ℕ)
    (t : TargetRow) (hT : findTarget today db = some t) :
    clickBody x y uid today now ⟨db, rng⟩ =
      (if roundedDistanceOf (distSq x y t.target_x t.target_y) = 0 then
        match winTx uid today now (getJackpot db) ⟨db, rng⟩ with
        | .error rngE => (.serverError "An unexpected server error occurred.", ⟨db, rngE⟩)
        | .ok w1 => (.win (roundedDistanceOf (distSq x y t.target_x t.target_y))
            t.target_x t.target_y (getJackpot db) 100, w1)
      else
        match missTx uid today now (getJackpot db)
            (round3 (getJackpot db + 1 / 1000)) ⟨db, rng⟩ with
        | .error rngE => (.serverError "An unexpected server error occurred.", ⟨db, rngE⟩)
        | .ok w1 => (.miss (roundedDistanceOf (distSq x y t.target_x t.target_y))
            t.target_x t.target_y (round3 (getJackpot db + 1 / 1000)), w1)) := by
  unfold clickBody
  rw [getOrCreate_some today db rng t hT]

/-- Unfolding of `clickBody` when today's target row is absent: the lazy
creation commits its insert before any transaction starts. -/
theorem clickBody_no_target (x y : ℤ) (uid today now : String) (db : Db) (rng : List ℕ)
    (hT : findTarget today db = none) :
    clickBody x y uid today now ⟨db, rng⟩ =
      (if roundedDistanceOf (distSq x y (randCoord rng).1 (randCoord (randCoord rng).2).1) = 0 then
        match winTx uid today now
            (getJackpot { db with targets := db.targets ++
              [⟨(randCoord rng).1, (randCoord (randCoord rng).2).1, today, 1⟩] })
            ⟨{ db with targets := db.targets ++
              [⟨(randCoord rng).1, (randCoord (randCoord rng).2).1, today, 1⟩] },
             (randCoord (randCoord rng).2).2⟩ with
        | .error rngE => (.serverError "An unexpected server error occurred.",
            ⟨{ db with targets := db.targets ++
              [⟨(randCoord rng).1, (randCoord (randCoord rng).2).1, today, 1⟩] }, rngE⟩)
        | .ok w1 => (.win
            (roundedDistanceOf (distSq x y (randCoord rng).1 (randCoord (randCoord rng).2).1))
            (randCoord rng).1 (randCoord (randCoord rng).2).1
            (getJackpot { db with targets := db.targets ++
              [⟨(randCoord rng).1, (randCoord (randCoord rng).2).1, today, 1⟩] }) 100, w1)
       else
        match missTx uid today now
            (getJackpot { db with targets := db.targets ++
              [⟨(randCoord rng).1, (randCoord (randCoord rng).2).1, today, 1⟩] })
            (round3 (getJackpot { db with targets := db.targets ++
              [⟨(randCoord rng).1, (randCoord (randCoord rng).2).1, today, 1⟩] } + 1 / 1000))
            ⟨{ db with targets := db.targets ++
              [⟨(randCoord rng).1, (randCoord (randCoord rng).2).1, today, 1⟩] },
             (randCoord (randCoord rng).2).2⟩ with
        | .error rngE => (.serverError "An unexpected server error occurred.",
            ⟨{ db with targets := db.targets ++
              [⟨(randCoord rng).1, (randCoord (randCoord rng).2).1, today, 1⟩] }, rngE⟩)
        | .ok w1 => (.miss
            (roundedDistanceOf (distSq x y (randCoord rng).1 (randCoord (randCoord rng).2).1))
            (randCoord rng).1 (randCoord (randCoord rng).2).1
            (round3 (getJackpot { db with targets := db.targets ++
              [⟨(randCoord rng).1, (randCoord (randCoord rng).2).1, today, 1⟩] } + 1 / 1000)),
            w1)) := by
  unfold clickBody
  rw [getOrCreate_none today db rng hT]

/-- Full effect of a winning click body (today's target exists, jackpot row
exists, no prior attempt, exact hit). -/
theorem clickBody_win (x y : ℤ) (uid today now : String) (db : Db) (rng : List ℕ)
    (jr : JackpotRow) (t : TargetRow)
    (hJ : db.jackpot = some jr) (hT : findTarget today db = some t)
    (hA : hasAttemptedToday uid today db = false)
    (hD : distSq x y t.target_x t.target_y = 0) :
    clickBody x y uid today now ⟨db, rng⟩ =
      (.win 0 t.target_x t.target_y jr.current_amount 100,
       ⟨{ jackpot := some ⟨100, now, uid, jr.version + 1⟩
          history := db.history ++ [⟨now, jr.current_amount, 100, .JACKPOT_WIN, uid⟩]
          targets := db.targets.map (fun row =>
            if row.target_date == today then
              { row with
                target_x := (randCoord rng).1
                target_y := (randCoord (randCoord rng).2).1
                version := row.version + 1 }
            else row)
          attempts := db.attempts ++ [⟨uid, today, now⟩] },
        (randCoord (randCoord rng).2).2⟩) := by
  have hdist : roundedDistanceOf (distSq x y t.target_x t.target_y) = 0 :=
    (roundedDistanceOf_eq_zero_iff _).mpr hD
  rw [clickBody_target x y uid today now db rng t hT, if_pos hdist,
    getJackpot_some db jr hJ,
    winTx_committed uid today now jr.current_amount db rng jr t hJ hT hA, hdist]

/-- Full effect of a missing click body (today's target exists, jackpot row
exists, no prior attempt, rounded incremented amount within range). -/
theorem clickBody_miss (x y : ℤ) (uid today now : String) (db : Db) (rng : List ℕ)
    (jr : JackpotRow) (t : TargetRow)
    (hJ : db.jackpot = some jr) (hT : findTarget today db = some t)
    (hA : hasAttemptedToday uid today db = false)
    (hD : distSq x y t.target_x t.target_y ≠ 0)
    (hLo : 0 ≤ round3 (jr.current_amount + 1 / 1000))
    (hHi : round3 (jr.current_amount + 1 / 1000) ≤ 10000000) :
    clickBody x y uid today now ⟨db, rng⟩ =
      (.miss (roundedDistanceOf (distSq x y t.target_x t.target_y)) t.target_x t.target_y
        (round3 (jr.current_amount + 1 / 1000)),
       ⟨{ jackpot := some ⟨round3 (jr.current_amount + 1 / 1000), now, uid, jr.version + 1⟩
          history := db.history ++
            [⟨now, jr.current_amount, round3 (jr.current_amount + 1 / 1000), .INCREMENT, uid⟩]
          targets := db.targets
          attempts := db.attempts ++ [⟨uid, today, now⟩] },
        rng⟩) := by
  have hdist : roundedDistanceOf (distSq x y t.target_x t.target_y) ≠ 0 := fun h =>
    hD ((roundedDistanceOf_eq_zero_iff _).mp h)
  rw [clickBody_target x y uid today now db rng t hT, if_neg hdist,
    getJackpot_some db jr hJ,
    missTx_committed uid today now jr.current_amount (round3 (jr.current_amount + 1 / 1000))
      db rng jr hJ hLo hHi hA, round3_idem]

/-- A missing click body whose rounded incremented amount exceeds the ceiling
throws inside `updateJackpot`: the caught error is reported generically and
nothing changes. -/
theorem clickBody_miss_ceiling (x y : ℤ) (uid today now : String) (db : Db) (rng : List ℕ)
    (jr : JackpotRow) (t : TargetRow)
    (hJ : db.jackpot = some jr) (hT : findTarget today db = some t)
    (hD : distSq x y t.target_x t.target_y ≠ 0)
    (hCeil : 10000000 < round3 (jr.current_amount + 1 / 1000)) :
    clickBody x y uid today now ⟨db, rng⟩ =
      (.serverError "An unexpected server error occurred.", ⟨db, rng⟩) := by
  have hdist : roundedDistanceOf (distSq x y t.target_x t.target_y) ≠ 0 := fun h =>
    hD ((roundedDistanceOf_eq_zero_iff _).mp h)
  rw [clickBody_target x y uid today now db rng t hT, if_neg hdist,
    getJackpot_some db jr hJ,
    missTx_above_ceiling uid today now jr.current_amount
      (round3 (jr.current_amount + 1 / 1000)) db rng hCeil]

/-- Jackpot-field case analysis of the click body: either the outcome is an
error and the jackpot row is untouched, or the outcome is a success and the
row was rewritten by `updateJackpot` with an in-range amount and a version
bump. -/
theorem clickBody_cases (x y : ℤ) (uid today now : String) (db : Db) (rng : List ℕ) :
    ((clickBody x y uid today now ⟨db, rng⟩).1.isSuccess = false ∧
      (clickBody x y uid today now ⟨db, rng⟩).2.db.jackpot = db.jackpot) ∨
    ((clickBody x y uid today now ⟨db, rng⟩).1.isSuccess = true ∧
      ∃ jr a, db.jackpot = some jr ∧ 0 ≤ a ∧ a ≤ 10000000 ∧
        (clickBody x y uid today now ⟨db, rng⟩).2.db.jackpot =
          some ⟨round3 a, now, uid, jr.version + 1⟩) := by
  cases hT : findTarget today db with
  | some t =>
      rw [clickBody_target x y uid today now db rng t hT]
      split
      · cases hw : winTx uid today now (getJackpot db) ⟨db, rng⟩ with
        | error rngE => exact Or.inl ⟨rfl, rfl⟩
        | ok w1 =>
            obtain ⟨jr, hJ, hjp⟩ := winTx_ok_jackpot hw
            refine Or.inr ⟨rfl, jr, 100, hJ, by norm_num, by norm_num, ?_⟩
            rw [round3_base]
            exact hjp
      · cases hw : missTx uid today now (getJackpot db)
            (round3 (getJackpot db + 1 / 1000)) ⟨db, rng⟩ with
        | error rngE => exact Or.inl ⟨rfl, rfl⟩
        | ok w1 =>
            obtain ⟨hLo, hHi, jr, hJ, hjp⟩ := missTx_ok_jackpot hw
            exact Or.inr ⟨rfl, jr, round3 (getJackpot db + 1 / 1000), hJ, hLo, hHi, hjp⟩
  | none =>
      rw [clickBody_no_target x y uid today now db rng hT]
      split
      · cases hw : winTx uid today now
            (getJackpot { db with targets := db.targets ++
              [⟨(randCoord rng).1, (randCoord (randCoord rng).2).1, today, 1⟩] })
            ⟨{ db with targets := db.targets ++
              [⟨(randCoord rng).1, (randCoord (randCoord rng).2).1, today, 1⟩] },
             (randCoord (randCoord rng).2).2⟩ with
        | error rngE => exact Or.inl ⟨rfl, rfl⟩
        | ok w1 =>
            obtain ⟨jr, hJ, hjp⟩ := winTx_ok_jackpot hw
            refine Or.inr ⟨rfl, jr, 100, hJ, by norm_num, by norm_num, ?_⟩
            rw [round3_base]
            exact hjp
      · cases hw : missTx uid today now
            (getJackpot { db with targets := db.targets ++
              [⟨(randCoord rng).1, (randCoord (randCoord rng).2).1, today, 1⟩] })
            (round3 (getJackpot { db with targets := db.targets ++
              [⟨(randCoord rng).1, (randCoord (randCoord rng).2).1, today, 1⟩] } + 1 / 1000))
            ⟨{ db with targets := db.targets ++
              [⟨(randCoord rng).1, (randCoord (randCoord rng).2).1, today, 1⟩] },
             (randCoord (randCoord rng).2).2⟩ with
        | error rngE => exact Or.inl ⟨rfl, rfl⟩
        | ok w1 =>
            obtain ⟨hLo, hHi, jr, hJ, hjp⟩ := missTx_ok_jackpot hw
            exact Or.inr ⟨rfl, jr, _, hJ, hLo, hHi, hjp⟩

/-- Out-of-range coordinates short-circuit `handleClick`. -/
theorem handleClick_validation (x y : ℤ) (uid today now : String) (w : World)
    (h : x < 0 ∨ 999 < x ∨ y < 0 ∨ 999 < y) :
    handleClick x y uid today now w = (.validationError "Invalid coordinates.", w) := by
  unfold handleClick
  rw [if_pos h]

/-- An already-recorded attempt short-circuits `handleClick` at the pre-check. -/
theorem handleClick_attempted (x y : ℤ) (uid today now : String) (w : World)
    (hx : ¬(x < 0 ∨ 999 < x ∨ y < 0 ∨ 999 < y))
    (hA : hasAttemptedToday uid today w.db = true) :
    handleClick x y uid today now w =
      (.attemptLimitError "You have already made your attempt for today.", w) := by
  unfold handleClick
  rw [if_neg hx, if_pos hA]

/-- With valid coordinates and a passing pre-check, `handleClick` runs its
body. -/
theorem handleClick_body (x y : ℤ) (uid today now : String) (w : World)
    (hx : ¬(x < 0 ∨ 999 < x ∨ y < 0 ∨ 999 < y))
    (hA : hasAttemptedToday uid today w.db = false) :
    handleClick x y uid today now w = clickBody x y uid today now w := by
  unfold handleClick
  rw [if_neg hx, if_neg (by rw [hA]; exact Bool.false_ne_true)]

/-- With valid coordinates and a passing pre-check, the raced variant runs the
body on the interfered database. -/
theorem handleClickRaced_body (interfere : Db → Db) (x y : ℤ)
    (uid today now : String) (w : World)
    (hx : ¬(x < 0 ∨ 999 < x ∨ y < 0 ∨ 999 < y))
    (hA : hasAttemptedToday uid today w.db = false) :
    handleClickRaced interfere x y uid today now w =
      clickBody x y uid today now ⟨interfere w.db, w.rng⟩ := by
  unfold handleClickRaced
  rw [if_neg hx, if_neg (by rw [hA]; exact Bool.false_ne_true)]

/-- The raced variant with no interference is exactly `handleClick`. -/
theorem handleClickRaced_id (x y : ℤ) (uid today now : String) (w : World) :
    handleClickRaced id x y uid today now w = handleClick x y uid today now w := rfl

/-- Jackpot-field case analysis of a full `handleClick` call. -/
theorem handleClick_cases (x y : ℤ) (uid today now : String) (db : Db) (rng : List ℕ) :
    ((handleClick x y uid today now ⟨db, rng⟩).1.isSuccess = false ∧
      (handleClick x y uid today now ⟨db, rng⟩).2.db.jackpot = db.jackpot) ∨
    ((handleClick x y uid today now ⟨db, rng⟩).1.isSuccess = true ∧
      ∃ jr a, db.jackpot = some jr ∧ 0 ≤ a ∧ a ≤ 10000000 ∧
        (handleClick x y uid today now ⟨db, rng⟩).2.db.jackpot =
          some ⟨round3 a, now, uid, jr.version + 1⟩) := by
  by_cases hx : x < 0 ∨ 999 < x ∨ y < 0 ∨ 999 < y
  · rw [handleClick_validation x y uid today now ⟨db, rng⟩ hx]
    exact Or.inl ⟨rfl, rfl⟩
  · cases hA : hasAttemptedToday uid today db with
    | true =>
        rw [handleClick_attempted x y uid today now ⟨db, rng⟩ hx hA]
        exact Or.inl ⟨rfl, rfl⟩
    | false =>
        rw [handleClick_body x y uid today now ⟨db, rng⟩ hx hA]
        exact clickBody_cases x y uid today now db rng

/-- Inversion for a committed win transaction: the caller's attempt row was
inserted. -/
theorem winTx_ok_attempts {uid today now : String} {a : ℚ} {db : Db} {rng : List ℕ}
    {w1 : World} (h : winTx uid today now a ⟨db, rng⟩ = .ok w1) :
    w1.db.attempts = db.attempts ++ [⟨uid, today, now⟩] := by
  cases hJ : db.jackpot with
  | none => rw [winTx_no_row uid today now a db rng hJ] at h; exact absurd h (by simp)
  | some jr =>
      cases hA : hasAttemptedToday uid today db with
      | true =>
          rw [winTx_dup uid today now a db rng jr hJ hA] at h
          exact absurd h (by simp)
      | false =>
          cases hT : findTarget today db with
          | some t =>
              rw [winTx_committed uid today now a db rng jr t hJ hT hA] at h
              simp only [Except.ok.injEq] at h
              rw [← h]
          | none =>
              rw [winTx_committed_fresh_target uid today now a db rng jr hJ hT hA] at h
              simp only [Except.ok.injEq] at h
              rw [← h]

/-- Inversion for a committed miss transaction: the caller's attempt row was
inserted. -/
theorem missTx_ok_attempts {uid today now : String} {p a : ℚ} {db : Db} {rng : List ℕ}
    {w1 : World} (h : missTx uid today now p a ⟨db, rng⟩ = .ok w1) :
    w1.db.attempts = db.attempts ++ [⟨uid, today, now⟩] := by
  by_cases h1 : a < 0
  · rw [missTx_below_zero uid today now p a db rng h1] at h
    exact absurd h (by simp)
  · by_cases h2 : 10000000 < a
    · rw [missTx_above_ceiling uid today now p a db rng h2] at h
      exact absurd h (by simp)
    · push_neg at h1 h2
      cases hJ : db.jackpot with
      | none =>
          rw [missTx_no_row uid today now p a db rng hJ h1 h2] at h
          exact absurd h (by simp)
      | some jr =>
          cases hA : hasAttemptedToday uid today db with
          | true =>
              rw [missTx_dup uid today now p a db rng jr hJ h1 h2 hA] at h
              exact absurd h (by simp)
          | false =>
              rw [missTx_committed uid today now p a db rng jr hJ h1 h2 hA] at h
              simp only [Except.ok.injEq] at h
              rw [← h]

/-- A successful click body always appends exactly the caller's attempt row. -/
theorem clickBody_success_attempts (x y : ℤ) (uid today now : String) (db : Db)
    (rng : List ℕ)
    (hS : (clickBody x y uid today now ⟨db, rng⟩).1.isSuccess = true) :
    (clickBody x y uid today now ⟨db, rng⟩).2.db.attempts =
      db.attempts ++ [⟨uid, today, now⟩] := by
  cases hT : findTarget today db with
  | some t =>
      rw [clickBody_target x y uid today now db rng t hT] at hS ⊢
      by_cases hD : roundedDistanceOf (distSq x y t.target_x t.target_y) = 0
      · rw [if_pos hD] at hS ⊢
        cases hw : winTx uid today now (getJackpot db) ⟨db, rng⟩ with
        | error rngE => rw [hw] at hS; exact absurd hS (by simp [ClickOutcome.isSuccess])
        | ok w1 => simpa using winTx_ok_attempts hw
      · rw [if_neg hD] at hS ⊢
        cases hw : missTx uid today now (getJackpot db)
            (round3 (getJackpot db + 1 / 1000)) ⟨db, rng⟩ with
        | error rngE => rw [hw] at hS; exact absurd hS (by simp [ClickOutcome.isSuccess])
        | ok w1 => simpa using missTx_ok_attempts hw
  | none =>
      rw [clickBody_no_target x y uid today now db rng hT] at hS ⊢
      by_cases hD : roundedDistanceOf
          (distSq x y (randCoord rng).1 (randCoord (randCoord rng).2).1) = 0
      · rw [if_pos hD] at hS ⊢
        cases hw : winTx uid today now
            (getJackpot { db with targets := db.targets ++
              [⟨(randCoord rng).1, (randCoord (randCoord rng).2).1, today, 1⟩] })
            ⟨{ db with targets := db.targets ++
              [⟨(randCoord rng).1, (randCoord (randCoord rng).2).1, today, 1⟩] },
             (randCoord (randCoord rng).2).2⟩ with
        | error rngE => rw [hw] at hS; exact absurd hS (by simp [ClickOutcome.isSuccess])
        | ok w1 => simpa using winTx_ok_attempts hw
      · rw [if_neg hD] at hS ⊢
        cases hw : missTx uid today now
            (getJackpot { db with targets := db.targets ++
              [⟨(randCoord rng).1, (randCoord (randCoord rng).2).1, today, 1⟩] })
            (round3 (getJackpot { db with targets := db.targets ++
              [⟨(randCoord rng).1, (randCoord (randCoord rng).2).1, today, 1⟩] } + 1 / 1000))
            ⟨{ db with targets := db.targets ++
              [⟨(randCoord rng).1, (randCoord (randCoord rng).2).1, today, 1⟩] },
             (randCoord (randCoord rng).2).2⟩ with
        | error rngE => rw [hw] at hS; exact absurd hS (by simp [ClickOutcome.isSuccess])
        | ok w1 => simpa using missTx_ok_attempts hw

/-- A successful click leaves the caller's attempt for the day recorded. -/
theorem handleClick_success_attempted (x y : ℤ) (uid today now : String) (db : Db)
    (rng : List ℕ)
    (hS : (handleClick x y uid today now ⟨db, rng⟩).1.isSuccess = true) :
    hasAttemptedToday uid today (handleClick x y uid today now ⟨db, rng⟩).2.db = true := by
  by_cases hx : x < 0 ∨ 999 < x ∨ y < 0 ∨ 999 < y
  · rw [handleClick_validation x y uid today now ⟨db, rng⟩ hx] at hS
    exact absurd hS (by simp [ClickOutcome.isSuccess])
  · cases hA : hasAttemptedToday uid today db with
    | true =>
        rw [handleClick_attempted x y uid today now ⟨db, rng⟩ hx hA] at hS
        exact absurd hS (by simp [ClickOutcome.isSuccess])
    | false =>
        rw [handleClick_body x y uid today now ⟨db, rng⟩ hx hA] at hS ⊢
        unfold hasAttemptedToday
        rw [clickBody_success_attempts x y uid today now db rng hS]
        simp

/-- Looking today's row up after the forced rotation's in-place `UPDATE`: the
first row keyed on the date is rewritten with fresh coordinates and its
version bumped by exactly one. -/
theorem find_map_rotate (ts : List TargetRow) (d : String) (t : TargetRow) (c1 c2 : ℤ)
    (h : ts.find? (fun row => row.target_date == d) = some t) :
    (ts.map (fun row =>
        if row.target_date == d then
          { row with target_x := c1, target_y := c2, version := row.version + 1 }
        else row)).find? (fun row => row.target_date == d) =
      some { t with target_x := c1, target_y := c2, version := t.version + 1 } := by
  induction ts with
  | nil => simp at h
  | cons hd tl ih =>
      cases hh : (hd.target_date == d) with
      | true =>
          simp only [List.find?_cons, hh] at h
          simp only [Option.some.injEq] at h
          subst h
          simp only [List.map_cons, if_pos hh, List.find?_cons]
          simp [hh]
      | false =>
          simp only [List.find?_cons, hh] at h
          simp only [List.map_cons, List.find?_cons, hh, Bool.false_eq_true, reduceIte]
          exact ih h

/-! Characterizations of `performAutoIncrement`. -/

/-- Full effect of a committed auto-increment tick. -/
theorem performAutoIncrement_committed (now : String) (db : Db) (jr : JackpotRow)
    (hJ : db.jackpot = some jr) (hLo : 0 ≤ jr.current_amount)
    (hHi : round3 (jr.current_amount + 1 / 100) ≤ 10000000) :
    performAutoIncrement now db =
      (.success (round3 (jr.current_amount + 1 / 100)),
       { db with
         jackpot := some ⟨round3 (jr.current_amount + 1 / 100), now, "system", jr.version + 1⟩
         history := db.history ++
           [⟨now, jr.current_amount, round3 (jr.current_amount + 1 / 100), .AUTO_INCREMENT,
             "system"⟩] }) := by
  unfold performAutoIncrement
  dsimp only
  rw [getJackpot_some db jr hJ,
    updateJackpot_some (round3 (jr.current_amount + 1 / 100)) "system" now db jr hJ
      (round3_nonneg _ (by linarith)) hHi, round3_idem]
  simp [logJackpotHistory]

/-- Jackpot-field case analysis of an auto-increment tick. -/
theorem performAutoIncrement_cases (now : String) (db : Db) :
    ((performAutoIncrement now db).1.isSuccess = false ∧
      (performAutoIncrement now db).2 = db) ∨
    ((performAutoIncrement now db).1.isSuccess = true ∧
      ∃ jr a, db.jackpot = some jr ∧ 0 ≤ a ∧ a ≤ 10000000 ∧
        (performAutoIncrement now db).2.jackpot =
          some ⟨round3 a, now, "system", jr.version + 1⟩) := by
  unfold performAutoIncrement
  dsimp only
  cases hu : updateJackpot (round3 (getJackpot db + 1 / 100)) "system" now db with
  | error e => exact Or.inl ⟨rfl, rfl⟩
  | ok q =>
      obtain ⟨b, db1⟩ := q
      rcases updateJackpot_ok_cases hu with ⟨hb, rfl⟩ | ⟨hb, hLo, hHi, jr, hJ, rfl⟩
      · subst hb
        exact Or.inl ⟨rfl, rfl⟩
      · subst hb
        exact Or.inr ⟨rfl, jr, round3 (getJackpot db + 1 / 100), hJ, hLo, hHi, rfl⟩

/-! Claim theorems. -/

/-- C8: for every pair of integers (x, y) with x or y outside [0, 999],
`handleClick` returns a ValidationError outcome and changes no ledger record
(jackpot, history, target and attempt tables are all unchanged, and no random
draw is consumed). -/
theorem C8_out_of_range_validation_error (x y : ℤ) (uid today now : String) (w : World)
    (h : x < 0 ∨ 999 < x ∨ y < 0 ∨ 999 < y) :
    handleClick x y uid today now w = (.validationError "Invalid coordinates.", w) :=
  handleClick_validation x y uid today now w h

/-- Witness for C8 at the concrete out-of-range click (1000, 0). -/
theorem C8_witness :
    handleClick 1000 0 "u" "d" "t" ⟨⟨some ⟨100, "t0", "system", 1⟩, [], [], []⟩, []⟩ =
      (.validationError "Invalid coordinates.",
       ⟨⟨some ⟨100, "t0", "system", 1⟩, [], [], []⟩, []⟩) :=
  C8_out_of_range_validation_error 1000 0 "u" "d" "t"
    ⟨⟨some ⟨100, "t0", "system", 1⟩, [], [], []⟩, []⟩ (Or.inr (Or.inl (by decide)))

/-- C10: when the singleton jackpot row is absent from the store, `getJackpot`
does not fail: it returns an amount of 0, so the exposed jackpot read on an
uninitialized ledger reports 0 rather than an error. -/
theorem C10_absent_jackpot_row_reads_zero (db : Db) (h : db.jackpot = none) :
    getJackpot db = 0 :=
  getJackpot_none db h

/-- Witness for C10 on the empty store. -/
theorem C10_witness : getJackpot ⟨none, [], [], []⟩ = 0 :=
  C10_absent_jackpot_row_reads_zero ⟨none, [], [], []⟩ rfl

/-- C4: with valid coordinates, a passing attempt pre-check, a present jackpot
row and a present daily-target row, `handleClick` returns a Win outcome iff
the Euclidean distance between (x, y) and the day's target rounded to 3
decimals is exactly 0; in that case, within one mutation unit, the jackpot is
reset to 100.00 attributed to the caller, one JACKPOT_WIN history entry is
appended with `previousAmount` the pre-click jackpot and `newAmount` 100.00,
the day's target row keeps its date with its version incremented by exactly 1,
the attempt is recorded, and the returned Win carries the pre-reset jackpot as
`wonAmount`. -/
theorem C4_win_iff_distance_zero_and_effects (x y : ℤ) (uid today now : String)
    (db : Db) (rng : List ℕ) (jr : JackpotRow) (t : TargetRow)
    (hx : 0 ≤ x ∧ x ≤ 999) (hy : 0 ≤ y ∧ y ≤ 999)
    (hJ : db.jackpot = some jr) (hT : findTarget today db = some t)
    (hA : hasAttemptedToday uid today db = false) :
    ((handleClick x y uid today now ⟨db, rng⟩).1.isWin = true ↔
      roundedDistanceOf (distSq x y t.target_x t.target_y) = 0) ∧
    (roundedDistanceOf (distSq x y t.target_x t.target_y) = 0 →
      (handleClick x y uid today now ⟨db, rng⟩).1 =
        .win 0 t.target_x t.target_y jr.current_amount 100 ∧
      (handleClick x y uid today now ⟨db, rng⟩).2.db.jackpot =
        some ⟨100, now, uid, jr.version + 1⟩ ∧
      (handleClick x y uid today now ⟨db, rng⟩).2.db.history =
        db.history ++ [⟨now, jr.current_amount, 100, .JACKPOT_WIN, uid⟩] ∧
      (handleClick x y uid today now ⟨db, rng⟩).2.db.attempts =
        db.attempts ++ [⟨uid, today, now⟩] ∧
      findTarget today (handleClick x y uid today now ⟨db, rng⟩).2.db =
        some { t with
          target_x := (randCoord rng).1
          target_y := (randCoord (randCoord rng).2).1
          version := t.version + 1 }) := by
  have hxv : ¬(x < 0 ∨ 999 < x ∨ y < 0 ∨ 999 < y) := by
    push_neg
    exact ⟨hx.1, hx.2, hy.1, hy.2⟩
  rw [handleClick_body x y uid today now ⟨db, rng⟩ hxv hA]
  by_cases hD : distSq x y t.target_x t.target_y = 0
  · rw [clickBody_win x y uid today now db rng jr t hJ hT hA hD]
    exact ⟨⟨fun _ => (roundedDistanceOf_eq_zero_iff _).mpr hD, fun _ => rfl⟩,
      fun _ => ⟨rfl, rfl, rfl, rfl, find_map_rotate db.targets today t _ _ hT⟩⟩
  · have hdist : roundedDistanceOf (distSq x y t.target_x t.target_y) ≠ 0 := fun h =>
      hD ((roundedDistanceOf_eq_zero_iff _).mp h)
    rw [clickBody_target x y uid today now db rng t hT, if_neg hdist]
    refine ⟨⟨?_, fun hc => absurd hc hdist⟩, fun hc => absurd hc hdist⟩
    cases hw : missTx uid today now (getJackpot db)
        (round3 (getJackpot db + 1 / 1000)) ⟨db, rng⟩ with
    | error rngE => exact fun hW => absurd hW (by simp [ClickOutcome.isWin])
    | ok w1 => exact fun hW => absurd hW (by simp [ClickOutcome.isWin])

/-- Witness for C4: a click exactly on the stored target (3, 4). -/
theorem C4_witness :
    (((handleClick 3 4 "u" "d" "t1"
        ⟨⟨some ⟨100, "t0", "system", 1⟩, [], [⟨3, 4, "d", 1⟩], []⟩, [7, 8]⟩).1.isWin = true) ↔
      roundedDistanceOf (distSq 3 4 3 4) = 0) ∧
    (roundedDistanceOf (distSq 3 4 3 4) = 0 →
      (handleClick 3 4 "u" "d" "t1"
        ⟨⟨some ⟨100, "t0", "system", 1⟩, [], [⟨3, 4, "d", 1⟩], []⟩, [7, 8]⟩).1 =
        .win 0 3 4 100 100 ∧
      (handleClick 3 4 "u" "d" "t1"
        ⟨⟨some ⟨100, "t0", "system", 1⟩, [], [⟨3, 4, "d", 1⟩], []⟩, [7, 8]⟩).2.db.jackpot =
        some ⟨100, "t1", "u", 2⟩ ∧
      (handleClick 3 4 "u" "d" "t1"
        ⟨⟨some ⟨100, "t0", "system", 1⟩, [], [⟨3, 4, "d", 1⟩], []⟩, [7, 8]⟩).2.db.history =
        [] ++ [⟨"t1", 100, 100, .JACKPOT_WIN, "u"⟩] ∧
      (handleClick 3 4 "u" "d" "t1"
        ⟨⟨some ⟨100, "t0", "system", 1⟩, [], [⟨3, 4, "d", 1⟩], []⟩, [7, 8]⟩).2.db.attempts =
        [] ++ [⟨"u", "d", "t1"⟩] ∧
      findTarget "d" (handleClick 3 4 "u" "d" "t1"
        ⟨⟨some ⟨100, "t0", "system", 1⟩, [], [⟨3, 4, "d", 1⟩], []⟩, [7, 8]⟩).2.db =
        some ⟨(randCoord [7, 8]).1, (randCoord (randCoord [7, 8]).2).1, "d", 2⟩) :=
  C4_win_iff_distance_zero_and_effects 3 4 "u" "d" "t1"
    ⟨some ⟨100, "t0", "system", 1⟩, [], [⟨3, 4, "d", 1⟩], []⟩ [7, 8]
    ⟨100, "t0", "system", 1⟩ ⟨3, 4, "d", 1⟩
    ⟨by decide, by decide⟩ ⟨by decide, by decide⟩ rfl rfl rfl

/-- C5: with valid coordinates, a passing pre-check, a present jackpot row, a
present daily-target row, a nonzero distance and a rounded incremented amount
within range, `handleClick` sets the jackpot to the pre-click amount plus
0.001 rounded to 3 decimals, appends exactly one INCREMENT history entry whose
`previousAmount` is the pre-click amount and whose `newAmount` is the stored
post-click amount, records the attempt, and returns a Miss carrying the new
jackpot amount, the target coordinates and the rounded distance; the target
table is untouched. -/
theorem C5_miss_effects (x y : ℤ) (uid today now : String)
    (db : Db) (rng : List ℕ) (jr : JackpotRow) (t : TargetRow)
    (hx : 0 ≤ x ∧ x ≤ 999) (hy : 0 ≤ y ∧ y ≤ 999)
    (hJ : db.jackpot = some jr) (hT : findTarget today db = some t)
    (hA : hasAttemptedToday uid today db = false)
    (hD : distSq x y t.target_x t.target_y ≠ 0)
    (hLo : 0 ≤ jr.current_amount)
    (hHi : round3 (jr.current_amount + 1 / 1000) ≤ 10000000) :
    handleClick x y uid today now ⟨db, rng⟩ =
      (.miss (roundedDistanceOf (distSq x y t.target_x t.target_y)) t.target_x t.target_y
        (round3 (jr.current_amount + 1 / 1000)),
       ⟨{ jackpot := some ⟨round3 (jr.current_amount + 1 / 1000), now, uid, jr.version + 1⟩
          history := db.history ++
            [⟨now, jr.current_amount, round3 (jr.current_amount + 1 / 1000), .INCREMENT, uid⟩]
          targets := db.targets
          attempts := db.attempts ++ [⟨uid, today, now⟩] }, rng⟩) := by
  have hxv : ¬(x < 0 ∨ 999 < x ∨ y < 0 ∨ 999 < y) := by
    push_neg
    exact ⟨hx.1, hx.2, hy.1, hy.2⟩
  rw [handleClick_body x y uid today now ⟨db, rng⟩ hxv hA,
    clickBody_miss x y uid today now db rng jr t hJ hT hA hD
      (round3_nonneg _ (by linarith)) hHi]

/-- Witness for C5: a click at (0, 0) against the stored target (5, 5). -/
theorem C5_witness :
    handleClick 0 0 "u" "d" "t1"
        ⟨⟨some ⟨100, "t0", "system", 1⟩, [], [⟨5, 5, "d", 1⟩], []⟩, []⟩ =
      (.miss (roundedDistanceOf (distSq 0 0 5 5)) 5 5 (round3 (100 + 1 / 1000)),
       ⟨{ jackpot := some ⟨round3 (100 + 1 / 1000), "t1", "u", 2⟩
          history := [] ++ [⟨"t1", 100, round3 (100 + 1 / 1000), .INCREMENT, "u"⟩]
          targets := [⟨5, 5, "d", 1⟩]
          attempts := [] ++ [⟨"u", "d", "t1"⟩] }, []⟩) :=
  C5_miss_effects 0 0 "u" "d" "t1"
    ⟨some ⟨100, "t0", "system", 1⟩, [], [⟨5, 5, "d", 1⟩], []⟩ []
    ⟨100, "t0", "system", 1⟩ ⟨5, 5, "d", 1⟩
    ⟨by decide, by decide⟩ ⟨by decide, by decide⟩ rfl rfl rfl (by decide)
    (by norm_num) (round3_le_ceiling _ (by norm_num))

/-- C9: when a miss click would push the jackpot above the 10,000,000 ceiling,
`updateJackpot` throws, the whole mutation unit aborts, `handleClick` returns
the generic server-error outcome, and the caller's daily click attempt is not
recorded — indeed the entire world (database and random tape) is exactly as
before the call. -/
theorem C9_ceiling_miss_aborts_without_attempt (x y : ℤ) (uid today now : String)
    (db : Db) (rng : List ℕ) (jr : JackpotRow) (t : TargetRow)
    (hx : 0 ≤ x ∧ x ≤ 999) (hy : 0 ≤ y ∧ y ≤ 999)
    (hJ : db.jackpot = some jr) (hT : findTarget today db = some t)
    (hA : hasAttemptedToday uid today db = false)
    (hD : distSq x y t.target_x t.target_y ≠ 0)
    (hCeil : 10000000 < round3 (jr.current_amount + 1 / 1000)) :
    handleClick x y uid today now ⟨db, rng⟩ =
      (.serverError "An unexpected server error occurred.", ⟨db, rng⟩) := by
  have hxv : ¬(x < 0 ∨ 999 < x ∨ y < 0 ∨ 999 < y) := by
    push_neg
    exact ⟨hx.1, hx.2, hy.1, hy.2⟩
  rw [handleClick_body x y uid today now ⟨db, rng⟩ hxv hA,
    clickBody_miss_ceiling x y uid today now db rng jr t hJ hT hD hCeil]

/-- Witness for C9: a miss at the ceiling amount 10,000,000. -/
theorem C9_witness :
    handleClick 1 0 "u" "d" "t1"
        ⟨⟨some ⟨10000000, "t0", "system", 1⟩, [], [⟨0, 0, "d", 1⟩], []⟩, []⟩ =
      (.serverError "An unexpected server error occurred.",
       ⟨⟨some ⟨10000000, "t0", "system", 1⟩, [], [⟨0, 0, "d", 1⟩], []⟩, []⟩) :=
  C9_ceiling_miss_aborts_without_attempt 1 0 "u" "d" "t1"
    ⟨some ⟨10000000, "t0", "system", 1⟩, [], [⟨0, 0, "d", 1⟩], []⟩ []
    ⟨10000000, "t0", "system", 1⟩ ⟨0, 0, "d", 1⟩
    ⟨by decide, by decide⟩ ⟨by decide, by decide⟩ rfl rfl rfl (by decide)
    (by unfold round3; norm_num [round_eq])

/-- C6: each successful `performAutoIncrement` invocation increases the
jackpot by exactly 0.01 rounded to 3 decimal places and appends exactly one
AUTO_INCREMENT history entry attributed to the reserved `system` actor, and it
makes no other ledger change: the target and attempt tables are untouched. -/
theorem C6_auto_increment_effects (now : String) (db : Db) (jr : JackpotRow)
    (hJ : db.jackpot = some jr) (hLo : 0 ≤ jr.current_amount)
    (hHi : round3 (jr.current_amount + 1 / 100) ≤ 10000000) :
    performAutoIncrement now db =
      (.success (round3 (jr.current_amount + 1 / 100)),
       { db with
         jackpot := some ⟨round3 (jr.current_amount + 1 / 100), now, "system", jr.version + 1⟩
         history := db.history ++
           [⟨now, jr.current_amount, round3 (jr.current_amount + 1 / 100), .AUTO_INCREMENT,
             "system"⟩] }) :=
  performAutoIncrement_committed now db jr hJ hLo hHi

/-- Witness for C6 on a store holding the initial jackpot of 100. -/
theorem C6_witness :
    performAutoIncrement "t1" ⟨some ⟨100, "t0", "system", 1⟩, [], [⟨0, 0, "d", 1⟩], []⟩ =
      (.success (round3 (100 + 1 / 100)),
       ⟨some ⟨round3 (100 + 1 / 100), "t1", "system", 2⟩,
        [] ++ [⟨"t1", 100, round3 (100 + 1 / 100), .AUTO_INCREMENT, "system"⟩],
        [⟨0, 0, "d", 1⟩], []⟩) :=
  C6_auto_increment_effects "t1" ⟨some ⟨100, "t0", "system", 1⟩, [], [⟨0, 0, "d", 1⟩], []⟩
    ⟨100, "t0", "system", 1⟩ rfl (by norm_num) (round3_le_ceiling _ (by norm_num))

/-- C7: for every reachable ledger state the jackpot amount is never negative
and never above the 10,000,000 ceiling, and the jackpot row's version
increases by exactly 1 with every committed jackpot mutation — a successful
click (win or miss) and a successful auto-increment tick each bump the version
by one. -/
theorem C7_amount_bounds_and_version_increments :
    (∀ db : Db, Reachable db → ∀ jr : JackpotRow, db.jackpot = some jr →
        0 ≤ jr.current_amount ∧ jr.current_amount ≤ 10000000) ∧
    (∀ (x y : ℤ) (uid today now : String) (db : Db) (rng : List ℕ)
        (jr jr' : JackpotRow),
        db.jackpot = some jr →
        (handleClick x y uid today now ⟨db, rng⟩).1.isSuccess = true →
        (handleClick x y uid today now ⟨db, rng⟩).2.db.jackpot = some jr' →
        jr'.version = jr.version + 1) ∧
    (∀ (now : String) (db : Db) (jr jr' : JackpotRow),
        db.jackpot = some jr →
        (performAutoIncrement now db).1.isSuccess = true →
        (performAutoIncrement now db).2.jackpot = some jr' →
        jr'.version = jr.version + 1) := by
  refine ⟨?_, ?_, ?_⟩
  · intro db hR
    induction hR with
    | init today now rng =>
        intro jr hjr
        simp only [initialDb, randCoord] at hjr
        simp only [Option.some.injEq] at hjr
        subst hjr
        exact ⟨by norm_num, by norm_num⟩
    | @click x y uid today now rng db hR ih =>
        intro jr' hjr'
        rcases handleClick_cases x y uid today now db rng with
          ⟨_, hEq⟩ | ⟨_, jr, a, hJ, hLo, hHi, hjp⟩
        · rw [hEq] at hjr'
          exact ih jr' hjr'
        · rw [hjp] at hjr'
          simp only [Option.some.injEq] at hjr'
          subst hjr'
          exact ⟨round3_nonneg a hLo, round3_le_ceiling a hHi⟩
    | @tick now db hR ih =>
        intro jr' hjr'
        rcases performAutoIncrement_cases now db with
          ⟨_, hEq⟩ | ⟨_, jr, a, hJ, hLo, hHi, hjp⟩
        · rw [hEq] at hjr'
          exact ih jr' hjr'
        · rw [hjp] at hjr'
          simp only [Option.some.injEq] at hjr'
          subst hjr'
          exact ⟨round3_nonneg a hLo, round3_le_ceiling a hHi⟩
  · intro x y uid today now db rng jr jr' hJ hS hjp
    rcases handleClick_cases x y uid today now db rng with
      ⟨hS2, _⟩ | ⟨_, jr2, a, hJ2, _, _, hjp2⟩
    · rw [hS] at hS2
      exact absurd hS2 (by decide)
    · rw [hJ] at hJ2
      simp only [Option.some.injEq] at hJ2
      subst hJ2
      rw [hjp2] at hjp
      simp only [Option.some.injEq] at hjp
      subst hjp
      rfl
  · intro now db jr jr' hJ hS hjp
    rcases performAutoIncrement_cases now db with
      ⟨hS2, _⟩ | ⟨_, jr2, a, hJ2, _, _, hjp2⟩
    · rw [hS] at hS2
      exact absurd hS2 (by decide)
    · rw [hJ] at hJ2
      simp only [Option.some.injEq] at hJ2
      subst hJ2
      rw [hjp2] at hjp
      simp only [Option.some.injEq] at hjp
      subst hjp
      rfl

/-- Witness for C7 at the freshly initialized store. -/
theorem C7_witness : 0 ≤ (100 : ℚ) ∧ (100 : ℚ) ≤ 10000000 :=
  C7_amount_bounds_and_version_increments.1 (initialDb "d" "t" []).1
    (Reachable.init "d" "t" []) ⟨100, "t", "system", 1⟩ rfl

/-- A concrete winning click, fully evaluated: caller `u` hits the stored
target (0, 0) on a fresh day, the jackpot resets to 100, the target rotates to
the next tape draws (7, 8) at version 2, and the attempt is recorded. -/
theorem firstClickWin_eq :
    handleClick 0 0 "u" "d" "t1"
        ⟨⟨some ⟨100, "t0", "system", 1⟩, [], [⟨0, 0, "d", 1⟩], []⟩, [7, 8]⟩ =
      (.win 0 0 0 100 100,
       ⟨⟨some ⟨100, "t1", "u", 2⟩, [⟨"t1", 100, 100, .JACKPOT_WIN, "u"⟩],
         [⟨7, 8, "d", 2⟩], [⟨"u", "d", "t1"⟩]⟩, []⟩) := by
  rw [handleClick_body 0 0 "u" "d" "t1"
      ⟨⟨some ⟨100, "t0", "system", 1⟩, [], [⟨0, 0, "d", 1⟩], []⟩, [7, 8]⟩ (by decide) rfl,
    clickBody_win 0 0 "u" "d" "t1"
      ⟨some ⟨100, "t0", "system", 1⟩, [], [⟨0, 0, "d", 1⟩], []⟩ [7, 8]
      ⟨100, "t0", "system", 1⟩ ⟨0, 0, "d", 1⟩ rfl rfl rfl (by decide)]
  simp [randCoord]

/-- C2 amended: after a first successful `handleClick` for an identifier, a
second call for the same identifier on the same calendar day with in-range
coordinates returns AttemptLimitError and changes nothing; with out-of-range
coordinates the range validation fires first, so the call returns
ValidationError (not AttemptLimitError) and likewise changes nothing. -/
theorem C2_amended_second_click (x1 y1 x2 y2 : ℤ) (uid today now1 now2 : String)
    (db : Db) (rng : List ℕ)
    (hS : (handleClick x1 y1 uid today now1 ⟨db, rng⟩).1.isSuccess = true) :
    (0 ≤ x2 ∧ x2 ≤ 999 ∧ 0 ≤ y2 ∧ y2 ≤ 999 →
      handleClick x2 y2 uid today now2 (handleClick x1 y1 uid today now1 ⟨db, rng⟩).2 =
        (.attemptLimitError "You have already made your attempt for today.",
         (handleClick x1 y1 uid today now1 ⟨db, rng⟩).2)) ∧
    ((x2 < 0 ∨ 999 < x2 ∨ y2 < 0 ∨ 999 < y2) →
      handleClick x2 y2 uid today now2 (handleClick x1 y1 uid today now1 ⟨db, rng⟩).2 =
        (.validationError "Invalid coordinates.",
         (handleClick x1 y1 uid today now1 ⟨db, rng⟩).2)) := by
  constructor
  · intro hIn
    refine handleClick_attempted x2 y2 uid today now2 _ ?_ ?_
    · push_neg
      exact ⟨hIn.1, hIn.2.1, hIn.2.2.1, hIn.2.2.2⟩
    · exact handleClick_success_attempted x1 y1 uid today now1 db rng hS
  · intro hOut
    exact handleClick_validation x2 y2 uid today now2 _ hOut

/-- C2 counterexample: a first click for `u` wins (so `u` has consumed the
day's attempt), yet a second same-day call with the out-of-range coordinates
(1000, 0) returns ValidationError, not AttemptLimitError — refuting
"returns AttemptLimitError regardless of the coordinates passed". -/
theorem C2_counterexample :
    ((handleClick 0 0 "u" "d" "t1"
        ⟨⟨some ⟨100, "t0", "system", 1⟩, [], [⟨0, 0, "d", 1⟩], []⟩,
         [7, 8]⟩).1.isSuccess = true) ∧
    ((handleClick 1000 0 "u" "d" "t2"
        (handleClick 0 0 "u" "d" "t1"
          ⟨⟨some ⟨100, "t0", "system", 1⟩, [], [⟨0, 0, "d", 1⟩], []⟩, [7, 8]⟩).2).1 =
      .validationError "Invalid coordinates.") ∧
    ((handleClick 1000 0 "u" "d" "t2"
        (handleClick 0 0 "u" "d" "t1"
          ⟨⟨some ⟨100, "t0", "system", 1⟩, [], [⟨0, 0, "d", 1⟩], []⟩,
           [7, 8]⟩).2).1.isAttemptLimitError = false) := by
  refine ⟨?_, ?_, ?_⟩
  · rw [firstClickWin_eq]
    rfl
  · rw [handleClick_validation 1000 0 "u" "d" "t2" _ (Or.inr (Or.inl (by decide)))]
  · rw [handleClick_validation 1000 0 "u" "d" "t2" _ (Or.inr (Or.inl (by decide)))]
    rfl

/-- Witness for the amended C2: the in-range second click (500, 500) is
rejected with AttemptLimitError and changes nothing. -/
theorem C2_witness :
    handleClick 500 500 "u" "d" "t2"
        (handleClick 0 0 "u" "d" "t1"
          ⟨⟨some ⟨100, "t0", "system", 1⟩, [], [⟨0, 0, "d", 1⟩], []⟩, [7, 8]⟩).2 =
      (.attemptLimitError "You have already made your attempt for today.",
       (handleClick 0 0 "u" "d" "t1"
          ⟨⟨some ⟨100, "t0", "system", 1⟩, [], [⟨0, 0, "d", 1⟩], []⟩, [7, 8]⟩).2) :=
  (C2_amended_second_click 0 0 500 500 "u" "d" "t1" "t2"
    ⟨some ⟨100, "t0", "system", 1⟩, [], [⟨0, 0, "d", 1⟩], []⟩ [7, 8]
    (by rw [firstClickWin_eq]; rfl)).1 (by decide)

/-- C1 amended: when the attempt-record insert inside the click's mutation
unit fails on the (identifier, date) uniqueness constraint — the pre-check
passed but a racing writer committed the caller's attempt row in between —
`handleClick` rejects the whole click and rolls the mutation unit back, but it
reports the generic server-error outcome, not an AttemptLimitError. -/
theorem C1_amended_race_yields_server_error (interfere : Db → Db) (x y : ℤ)
    (uid today now : String) (db : Db) (rng : List ℕ) (jr : JackpotRow) (t : TargetRow)
    (hx : 0 ≤ x ∧ x ≤ 999) (hy : 0 ≤ y ∧ y ≤ 999)
    (hPre : hasAttemptedToday uid today db = false)
    (hRace : hasAttemptedToday uid today (interfere db) = true)
    (hJ : (interfere db).jackpot = some jr)
    (hT : findTarget today (interfere db) = some t)
    (hLo : 0 ≤ round3 (jr.current_amount + 1 / 1000))
    (hHi : round3 (jr.current_amount + 1 / 1000) ≤ 10000000) :
    (handleClickRaced interfere x y uid today now ⟨db, rng⟩).1 =
      .serverError "An unexpected server error occurred." ∧
    (handleClickRaced interfere x y uid today now ⟨db, rng⟩).1.isAttemptLimitError = false ∧
    (handleClickRaced interfere x y uid today now ⟨db, rng⟩).2.db = interfere db := by
  have hxv : ¬(x < 0 ∨ 999 < x ∨ y < 0 ∨ 999 < y) := by
    push_neg
    exact ⟨hx.1, hx.2, hy.1, hy.2⟩
  rw [handleClickRaced_body interfere x y uid today now ⟨db, rng⟩ hxv hPre,
    clickBody_target x y uid today now (interfere db) rng t hT]
  by_cases hD : roundedDistanceOf (distSq x y t.target_x t.target_y) = 0
  · rw [if_pos hD,
      winTx_dup uid today now (getJackpot (interfere db)) (interfere db) rng jr hJ hRace]
    exact ⟨rfl, rfl, rfl⟩
  · rw [if_neg hD, getJackpot_some (interfere db) jr hJ,
      missTx_dup uid today now jr.current_amount (round3 (jr.current_amount + 1 / 1000))
        (interfere db) rng jr hJ hLo hHi hRace]
    exact ⟨rfl, rfl, rfl⟩

/-- C1 counterexample: the racing writer is a second identical submission from
the same identifier that commits first (a full `handleClick` that wins and
records the attempt).  The raced click's pre-check passes on the shared state
it saw, the insert then hits the uniqueness constraint, and the outcome is the
generic server error, not an AttemptLimitError. -/
theorem C1_counterexample :
    (hasAttemptedToday "u" "d"
      ⟨some ⟨100, "t0", "system", 1⟩, [], [⟨0, 0, "d", 1⟩], []⟩ = false) ∧
    (hasAttemptedToday "u" "d"
      ((fun s => (handleClick 0 0 "u" "d" "t1" ⟨s, [7, 8]⟩).2.db)
        ⟨some ⟨100, "t0", "system", 1⟩, [], [⟨0, 0, "d", 1⟩], []⟩) = true) ∧
    ((handleClickRaced (fun s => (handleClick 0 0 "u" "d" "t1" ⟨s, [7, 8]⟩).2.db)
        0 0 "u" "d" "t2"
        ⟨⟨some ⟨100, "t0", "system", 1⟩, [], [⟨0, 0, "d", 1⟩], []⟩, [1, 2]⟩).1 =
      .serverError "An unexpected server error occurred.") ∧
    ((handleClickRaced (fun s => (handleClick 0 0 "u" "d" "t1" ⟨s, [7, 8]⟩).2.db)
        0 0 "u" "d" "t2"
        ⟨⟨some ⟨100, "t0", "system", 1⟩, [], [⟨0, 0, "d", 1⟩], []⟩,
         [1, 2]⟩).1.isAttemptLimitError = false) := by
  have hmain : handleClickRaced (fun s => (handleClick 0 0 "u" "d" "t1" ⟨s, [7, 8]⟩).2.db)
      0 0 "u" "d" "t2"
      ⟨⟨some ⟨100, "t0", "system", 1⟩, [], [⟨0, 0, "d", 1⟩], []⟩, [1, 2]⟩ =
      (.serverError "An unexpected server error occurred.",
       ⟨⟨some ⟨100, "t1", "u", 2⟩, [⟨"t1", 100, 100, .JACKPOT_WIN, "u"⟩],
         [⟨7, 8, "d", 2⟩], [⟨"u", "d", "t1"⟩]⟩, [1, 2]⟩) := by
    rw [handleClickRaced_body (fun s => (handleClick 0 0 "u" "d" "t1" ⟨s, [7, 8]⟩).2.db)
      0 0 "u" "d" "t2"
      ⟨⟨some ⟨100, "t0", "system", 1⟩, [], [⟨0, 0, "d", 1⟩], []⟩, [1, 2]⟩ (by decide) rfl]
    show clickBody 0 0 "u" "d" "t2"
        ⟨(handleClick 0 0 "u" "d" "t1"
          ⟨⟨some ⟨100, "t0", "system", 1⟩, [], [⟨0, 0, "d", 1⟩], []⟩, [7, 8]⟩).2.db, [1, 2]⟩ = _
    rw [firstClickWin_eq]
    rw [clickBody_target 0 0 "u" "d" "t2"
        ⟨some ⟨100, "t1", "u", 2⟩, [⟨"t1", 100, 100, .JACKPOT_WIN, "u"⟩],
          [⟨7, 8, "d", 2⟩], [⟨"u", "d", "t1"⟩]⟩ [1, 2] ⟨7, 8, "d", 2⟩ rfl,
      if_neg (show ¬roundedDistanceOf (distSq 0 0 7 8) = 0 from fun h =>
        absurd ((roundedDistanceOf_eq_zero_iff _).mp h) (by decide)),
      missTx_dup "u" "d" "t2"
        (getJackpot ⟨some ⟨100, "t1", "u", 2⟩, [⟨"t1", 100, 100, .JACKPOT_WIN, "u"⟩],
          [⟨7, 8, "d", 2⟩], [⟨"u", "d", "t1"⟩]⟩)
        (round3 (getJackpot ⟨some ⟨100, "t1", "u", 2⟩, [⟨"t1", 100, 100, .JACKPOT_WIN, "u"⟩],
          [⟨7, 8, "d", 2⟩], [⟨"u", "d", "t1"⟩]⟩ + 1 / 1000))
        ⟨some ⟨100, "t1", "u", 2⟩, [⟨"t1", 100, 100, .JACKPOT_WIN, "u"⟩],
          [⟨7, 8, "d", 2⟩], [⟨"u", "d", "t1"⟩]⟩ [1, 2] ⟨100, "t1", "u", 2⟩ rfl
        (round3_nonneg _ (by norm_num [getJackpot]))
        (round3_le_ceiling _ (by norm_num [getJackpot])) rfl]
  refine ⟨rfl, ?_, ?_, ?_⟩
  · show hasAttemptedToday "u" "d"
      (handleClick 0 0 "u" "d" "t1"
        ⟨⟨some ⟨100, "t0", "system", 1⟩, [], [⟨0, 0, "d", 1⟩], []⟩, [7, 8]⟩).2.db = true
    rw [firstClickWin_eq]
    rfl
  · rw [hmain]
  · rw [hmain]
    rfl

/-- Witness for the amended C1, with the racing writer's committed effect
being the insertion of the caller's attempt row for the day. -/
theorem C1_witness :
    ((handleClickRaced (fun s => { s with attempts := s.attempts ++ [⟨"u", "d", "t0"⟩] })
        0 0 "u" "d" "t1"
        ⟨⟨some ⟨100, "t0", "system", 1⟩, [], [⟨0, 0, "d", 1⟩], []⟩, []⟩).1 =
      .serverError "An unexpected server error occurred.") ∧
    ((handleClickRaced (fun s => { s with attempts := s.attempts ++ [⟨"u", "d", "t0"⟩] })
        0 0 "u" "d" "t1"
        ⟨⟨some ⟨100, "t0", "system", 1⟩, [], [⟨0, 0, "d", 1⟩], []⟩,
         []⟩).1.isAttemptLimitError = false) ∧
    ((handleClickRaced (fun s => { s with attempts := s.attempts ++ [⟨"u", "d", "t0"⟩] })
        0 0 "u" "d" "t1"
        ⟨⟨some ⟨100, "t0", "system", 1⟩, [], [⟨0, 0, "d", 1⟩], []⟩, []⟩).2.db =
      ⟨some ⟨100, "t0", "system", 1⟩, [], [⟨0, 0, "d", 1⟩], [⟨"u", "d", "t0"⟩]⟩) :=
  C1_amended_race_yields_server_error
    (fun s => { s with attempts := s.attempts ++ [⟨"u", "d", "t0"⟩] }) 0 0 "u" "d" "t1"
    ⟨some ⟨100, "t0", "system", 1⟩, [], [⟨0, 0, "d", 1⟩], []⟩ []
    ⟨100, "t0", "system", 1⟩ ⟨0, 0, "d", 1⟩
    ⟨by decide, by decide⟩ ⟨by decide, by decide⟩ rfl rfl rfl rfl
    (round3_nonneg _ (by norm_num)) (round3_le_ceiling _ (by norm_num))

/-- C3 amended: after `handleClick` returns an error, every write of the
mutation unit has been rolled back — jackpot, history and attempt tables are
exactly as before the call — but the daily-target row, created lazily outside
the mutation unit when absent for the day, survives the failure: the target
table is either unchanged or extended by exactly that fresh version-1 row. -/
theorem C3_amended_rollback_modulo_lazy_target (x y : ℤ) (uid today now : String)
    (db : Db) (rng : List ℕ)
    (hErr : (handleClick x y uid today now ⟨db, rng⟩).1.isError = true) :
    (handleClick x y uid today now ⟨db, rng⟩).2.db.jackpot = db.jackpot ∧
    (handleClick x y uid today now ⟨db, rng⟩).2.db.history = db.history ∧
    (handleClick x y uid today now ⟨db, rng⟩).2.db.attempts = db.attempts ∧
    ((handleClick x y uid today now ⟨db, rng⟩).2.db.targets = db.targets ∨
      (findTarget today db = none ∧
        (handleClick x y uid today now ⟨db, rng⟩).2.db.targets =
          db.targets ++ [⟨(randCoord rng).1, (randCoord (randCoord rng).2).1, today, 1⟩])) := by
  by_cases hx : x < 0 ∨ 999 < x ∨ y < 0 ∨ 999 < y
  · rw [handleClick_validation x y uid today now ⟨db, rng⟩ hx]
    exact ⟨rfl, rfl, rfl, Or.inl rfl⟩
  · cases hA : hasAttemptedToday uid today db with
    | true =>
        rw [handleClick_attempted x y uid today now ⟨db, rng⟩ hx hA]
        exact ⟨rfl, rfl, rfl, Or.inl rfl⟩
    | false =>
        rw [handleClick_body x y uid today now ⟨db, rng⟩ hx hA] at hErr ⊢
        cases hT : findTarget today db with
        | some t =>
            rw [clickBody_target x y uid today now db rng t hT] at hErr ⊢
            by_cases hD : roundedDistanceOf (distSq x y t.target_x t.target_y) = 0
            · rw [if_pos hD] at hErr ⊢
              cases hw : winTx uid today now (getJackpot db) ⟨db, rng⟩ with
              | error rngE => exact ⟨rfl, rfl, rfl, Or.inl rfl⟩
              | ok w1 =>
                  rw [hw] at hErr
                  simp [ClickOutcome.isError, ClickOutcome.isSuccess] at hErr
            · rw [if_neg hD] at hErr ⊢
              cases hw : missTx uid today now (getJackpot db)
                  (round3 (getJackpot db + 1 / 1000)) ⟨db, rng⟩ with
              | error rngE => exact ⟨rfl, rfl, rfl, Or.inl rfl⟩
              | ok w1 =>
                  rw [hw] at hErr
                  simp [ClickOutcome.isError, ClickOutcome.isSuccess] at hErr
        | none =>
            rw [clickBody_no_target x y uid today now db rng hT] at hErr ⊢
            by_cases hD : roundedDistanceOf
                (distSq x y (randCoord rng).1 (randCoord (randCoord rng).2).1) = 0
            · rw [if_pos hD] at hErr ⊢
              cases hw : winTx uid today now
                  (getJackpot { db with targets := db.targets ++
                    [⟨(randCoord rng).1, (randCoord (randCoord rng).2).1, today, 1⟩] })
                  ⟨{ db with targets := db.targets ++
                    [⟨(randCoord rng).1, (randCoord (randCoord rng).2).1, today, 1⟩] },
                   (randCoord (randCoord rng).2).2⟩ with
              | error rngE => exact ⟨rfl, rfl, rfl, Or.inr ⟨rfl, rfl⟩⟩
              | ok w1 =>
                  rw [hw] at hErr
                  simp [ClickOutcome.isError, ClickOutcome.isSuccess] at hErr
            · rw [if_neg hD] at hErr ⊢
              cases hw : missTx uid today now
                  (getJackpot { db with targets := db.targets ++
                    [⟨(randCoord rng).1, (randCoord (randCoord rng).2).1, today, 1⟩] })
                  (round3 (getJackpot { db with targets := db.targets ++
                    [⟨(randCoord rng).1, (randCoord (randCoord rng).2).1, today, 1⟩] } + 1 / 1000))
                  ⟨{ db with targets := db.targets ++
                    [⟨(randCoord rng).1, (randCoord (randCoord rng).2).1, today, 1⟩] },
                   (randCoord (randCoord rng).2).2⟩ with
              | error rngE => exact ⟨rfl, rfl, rfl, Or.inr ⟨rfl, rfl⟩⟩
              | ok w1 =>
                  rw [hw] at hErr
                  simp [ClickOutcome.isError, ClickOutcome.isSuccess] at hErr

/-- C3 counterexample: with the jackpot at the ceiling and no target row for
the day, a miss click fails inside the mutation unit (`updateJackpot` throws),
`handleClick` returns an error — yet the lazily created daily-target row
survives, so the target table is NOT exactly as it was before the call. -/
theorem C3_counterexample :
    ((handleClick 1 0 "u" "d" "t1"
        ⟨⟨some ⟨10000000, "t0", "system", 1⟩, [], [], []⟩, [0, 0]⟩).1.isError = true) ∧
    ((handleClick 1 0 "u" "d" "t1"
        ⟨⟨some ⟨10000000, "t0", "system", 1⟩, [], [], []⟩, [0, 0]⟩).2.db.targets ≠
      (⟨some ⟨10000000, "t0", "system", 1⟩, [], [], []⟩ : Db).targets) := by
  have hmain : handleClick 1 0 "u" "d" "t1"
      ⟨⟨some ⟨10000000, "t0", "system", 1⟩, [], [], []⟩, [0, 0]⟩ =
      (.serverError "An unexpected server error occurred.",
       ⟨⟨some ⟨10000000, "t0", "system", 1⟩, [], [⟨0, 0, "d", 1⟩], []⟩, []⟩) := by
    rw [handleClick_body 1 0 "u" "d" "t1"
        ⟨⟨some ⟨10000000, "t0", "system", 1⟩, [], [], []⟩, [0, 0]⟩ (by decide) rfl,
      clickBody_no_target 1 0 "u" "d" "t1"
        ⟨some ⟨10000000, "t0", "system", 1⟩, [], [], []⟩ [0, 0] rfl,
      if_neg (show ¬roundedDistanceOf
          (distSq 1 0 (randCoord [0, 0]).1 (randCoord (randCoord [0, 0]).2).1) = 0 from
        fun h => absurd ((roundedDistanceOf_eq_zero_iff _).mp h) (by decide)),
      missTx_above_ceiling "u" "d" "t1"
        (getJackpot { (⟨some ⟨10000000, "t0", "system", 1⟩, [], [], []⟩ : Db) with
          targets := (⟨some ⟨10000000, "t0", "system", 1⟩, [], [], []⟩ : Db).targets ++
            [⟨(randCoord [0, 0]).1, (randCoord (randCoord [0, 0]).2).1, "d", 1⟩] })
        (round3 (getJackpot { (⟨some ⟨10000000, "t0", "system", 1⟩, [], [], []⟩ : Db) with
          targets := (⟨some ⟨10000000, "t0", "system", 1⟩, [], [], []⟩ : Db).targets ++
            [⟨(randCoord [0, 0]).1, (randCoord (randCoord [0, 0]).2).1, "d", 1⟩] } + 1 / 1000))
        { (⟨some ⟨10000000, "t0", "system", 1⟩, [], [], []⟩ : Db) with
          targets := (⟨some ⟨10000000, "t0", "system", 1⟩, [], [], []⟩ : Db).targets ++
            [⟨(randCoord [0, 0]).1, (randCoord (randCoord [0, 0]).2).1, "d", 1⟩] }
        (randCoord (randCoord [0, 0]).2).2
        (by norm_num [getJackpot, round3, round_eq])]
    rfl
  rw [hmain]
  exact ⟨rfl, by decide⟩

/-- Witness for the amended C3 at a validation-rejected call, where every
table is untouched. -/
theorem C3_witness :
    (handleClick 1000 0 "u" "d" "t"
        ⟨⟨some ⟨100, "t0", "system", 1⟩, [], [], []⟩, []⟩).2.db.jackpot =
      (⟨some ⟨100, "t0", "system", 1⟩, [], [], []⟩ : Db).jackpot ∧
    (handleClick 1000 0 "u" "d" "t"
        ⟨⟨some ⟨100, "t0", "system", 1⟩, [], [], []⟩, []⟩).2.db.history =
      (⟨some ⟨100, "t0", "system", 1⟩, [], [], []⟩ : Db).history ∧
    (handleClick 1000 0 "u" "d" "t"
        ⟨⟨some ⟨100, "t0", "system", 1⟩, [], [], []⟩, []⟩).2.db.attempts =
      (⟨some ⟨100, "t0", "system", 1⟩, [], [], []⟩ : Db).attempts ∧
    ((handleClick 1000 0 "u" "d" "t"
        ⟨⟨some ⟨100, "t0", "system", 1⟩, [], [], []⟩, []⟩).2.db.targets =
      (⟨some ⟨100, "t0", "system", 1⟩, [], [], []⟩ : Db).targets ∨
      (findTarget "d" (⟨some ⟨100, "t0", "system", 1⟩, [], [], []⟩ : Db) = none ∧
        (handleClick 1000 0 "u" "d" "t"
          ⟨⟨some ⟨100, "t0", "system", 1⟩, [], [], []⟩, []⟩).2.db.targets =
        (⟨some ⟨100, "t0", "system", 1⟩, [], [], []⟩ : Db).targets ++
          [⟨(randCoord []).1, (randCoord (randCoord []).2).1, "d", 1⟩])) :=
  C3_amended_rollback_modulo_lazy_target 1000 0 "u" "d" "t"
    ⟨some ⟨100, "t0", "system", 1⟩, [], [], []⟩ [] (by decide)

end TheClick
